import Mathlib

/-!
# storyApp presenters: a shallow embedding

The four page presenters of the story application
(`home-presenter.js`, `offline-page-presenter.js`,
`add-story-page-presenter.js`, `detail-story-presenter.js`) are glue code:
each method reads a few values from its collaborators (model, view, browser)
and issues calls to them.  A method is embedded as a program of the monad
`Eff`, which threads the world (the model's state and the window's listener
registry), records the ordered list of collaborator calls (the trace) and
carries a thrown error the way JavaScript does, with `try`, `catch` and
`finally`.

* A model is a transition system over an arbitrary state type; the values the
  view and the browser hand back during one run are arguments of the method.
* A promise that the source awaits is embedded by its settled outcome
  (`Except JSError α`): `await` of a rejected promise throws at that point.
* Void view methods and the notification helpers lie outside the presenters
  and are taken not to throw.

The one method that computes, `#urlBase64ToUint8Array` of the feed presenter, is
embedded as a function on the characters of the key.  It is compared with the
base64url decoding of RFC 4648, written on its own as a bit string cut into
octets.
-/

namespace StoryApp

/-! ## JavaScript values -/

/-- The JavaScript values that reach the presenters' truthiness and `typeof`
tests.  A finite number is given by its rational value. -/
inductive JSValue where
  | undefined
  | null
  | number (x : ℚ)
  | nan
  | infinity (negative : Bool)
  | string (s : String)
  deriving DecidableEq, Repr

/-- JavaScript `ToBoolean`: `undefined`, `null`, `0`, `NaN` and the empty string
are falsy. -/
def JSValue.truthy : JSValue → Bool
  | .undefined => false
  | .null => false
  | .number x => decide (x ≠ 0)
  | .nan => false
  | .infinity _ => true
  | .string s => decide (s ≠ "")

/-- The test `typeof v === 'number'`. -/
def JSValue.isNumber : JSValue → Bool
  | .number _ => true
  | .nan => true
  | .infinity _ => true
  | _ => false

/-- A value thrown, or a promise rejected with, as a `catch` clause receives it.
It is either `undefined` or `null` (`nullish`), of which no property can be
read, or any other value, given by the text that its `message` property makes in
a template literal, the one thing the presenters read of it. -/
inductive JSError where
  | nullish
  | value (message : String)
  deriving DecidableEq, Repr

/-- The error thrown by reading a property of `undefined` or `null`. -/
def typeError : JSError := .value "TypeError"

/-- A story record as the presenters read it. -/
structure Story where
  id : JSValue
  name : String
  photoUrl : JSValue
  lat : JSValue
  lon : JSValue
  deriving DecidableEq, Repr

/-! ## The window's listener registry -/

/-- The two window events used as page-lifecycle signals. -/
inductive WindowEvent where
  | hashchange
  | beforeunload
  deriving DecidableEq, Repr

/-- A function object.  `id` is its identity (what `removeEventListener`
compares); `boundThis` is the presenter instance the function was bound to with
`bind`, on which it runs when the window invokes it (`none` for a method taken
off the instance without `bind`). -/
structure FunctionObject where
  id : Nat
  boundThis : Option Nat
  deriving DecidableEq, Repr

/-- One registered window listener. -/
structure Listener where
  type : WindowEvent
  callback : FunctionObject
  once : Bool
  deriving DecidableEq, Repr

/-- The window: its registered listeners, and the next unused object identity. -/
structure Window where
  listeners : List Listener
  nextId : Nat
  deriving DecidableEq, Repr

/-- Whether a listener is the registration of `callback` for `type` (capture is
always the default in these presenters). -/
def Listener.isFor (l : Listener) (type : WindowEvent) (callback : FunctionObject) : Bool :=
  decide (l.type = type) && decide (l.callback.id = callback.id)

/-- DOM `addEventListener`: appends the listener unless the same callback is
already registered for the same event. -/
def Window.addEventListener (w : Window) (type : WindowEvent) (callback : FunctionObject)
    (once : Bool) : Window :=
  if w.listeners.any (fun l => l.isFor type callback) then w
  else { w with listeners := w.listeners ++ [⟨type, callback, once⟩] }

/-- DOM `removeEventListener`: removes the registration of that very callback
for the event, if there is one. -/
def Window.removeEventListener (w : Window) (type : WindowEvent) (callback : FunctionObject) :
    Window :=
  { w with listeners := w.listeners.filter (fun l => !l.isFor type callback) }

/-- The expression `method.bind(self)`: every evaluation allocates a new function
object. -/
def Window.bind (w : Window) (self : Nat) : FunctionObject × Window :=
  (⟨w.nextId, some self⟩, { w with nextId := w.nextId + 1 })

/-- Whether some handler bound to presenter instance `self` is registered for
`type`. -/
def Window.hasHandler (w : Window) (self : Nat) (type : WindowEvent) : Bool :=
  w.listeners.any (fun l => decide (l.type = type) && decide (l.callback.boundThis = some self))

/-- How many handlers bound to presenter instance `self` are registered for
`type`. -/
def Window.countHandlers (w : Window) (self : Nat) (type : WindowEvent) : Nat :=
  w.listeners.countP (fun l => decide (l.type = type) && decide (l.callback.boundThis = some self))

/-- Every registered callback was allocated before `nextId`. -/
def Window.WellFormed (w : Window) : Prop :=
  ∀ l ∈ w.listeners, l.callback.id < w.nextId

instance (w : Window) : Decidable w.WellFormed :=
  inferInstanceAs (Decidable (∀ l ∈ w.listeners, l.callback.id < w.nextId))

/-! ## Effects -/

/-- The world a presenter acts on: its model's state and the window. -/
structure World (σ : Type) where
  model : σ
  window : Window

/-- What running a piece of presenter code gives: the collaborator calls made,
in order; the world afterwards; and the value returned or the error thrown. -/
structure Outcome (κ σ α : Type) where
  trace : List κ
  world : World σ
  result : Except JSError α

/-- The error that escaped, if any. -/
def Outcome.thrown {κ σ α : Type} (o : Outcome κ σ α) : Option JSError :=
  match o.result with
  | .ok _ => none
  | .error e => some e

/-- Presenter code with calls of type `κ` over a model state `σ`. -/
def Eff (κ σ α : Type) : Type := World σ → Outcome κ σ α

namespace Eff

variable {κ σ α β : Type}

/-- Running presenter code from a world. -/
def run (x : Eff κ σ α) (w : World σ) : Outcome κ σ α := x w

/-- Returning a value. -/
def ret (a : α) : Eff κ σ α := fun w => ⟨[], w, .ok a⟩

/-- Sequencing: a thrown error skips what follows. -/
def andThen (x : Eff κ σ α) (f : α → Eff κ σ β) : Eff κ σ β := fun w =>
  match x w with
  | ⟨t, w1, .ok a⟩ =>
    match f a w1 with
    | ⟨t2, w2, r⟩ => ⟨t ++ t2, w2, r⟩
  | ⟨t, w1, .error e⟩ => ⟨t, w1, .error e⟩

/-- JavaScript `throw`. -/
def raise (e : JSError) : Eff κ σ α := fun w => ⟨[], w, .error e⟩

/-- JavaScript `try { body } catch (e) { handler e }`. -/
def catchError (body : Eff κ σ α) (handler : JSError → Eff κ σ α) : Eff κ σ α := fun w =>
  match body w with
  | ⟨t, w1, .ok a⟩ => ⟨t, w1, .ok a⟩
  | ⟨t, w1, .error e⟩ =>
    match handler e w1 with
    | ⟨t2, w2, r⟩ => ⟨t ++ t2, w2, r⟩

/-- JavaScript `try { body } finally { fin }`: the finaliser runs on both exits;
an error of the body is thrown again after it, unless the finaliser throws
itself. -/
def finallyDo (body : Eff κ σ α) (fin : Option α → Eff κ σ β) : Eff κ σ (α × β) := fun w =>
  match body w with
  | ⟨t, w1, .ok a⟩ =>
    match fin (some a) w1 with
    | ⟨t2, w2, .ok b⟩ => ⟨t ++ t2, w2, .ok (a, b)⟩
    | ⟨t2, w2, .error e2⟩ => ⟨t ++ t2, w2, .error e2⟩
  | ⟨t, w1, .error e⟩ =>
    match fin none w1 with
    | ⟨t2, w2, .ok _⟩ => ⟨t ++ t2, w2, .error e⟩
    | ⟨t2, w2, .error e2⟩ => ⟨t ++ t2, w2, .error e2⟩

instance : Monad (Eff κ σ) where
  pure := ret
  bind := andThen

instance : MonadExcept JSError (Eff κ σ) where
  throw := raise
  tryCatch := catchError

instance : MonadFinally (Eff κ σ) where
  tryFinally' := finallyDo

/-- A call on a collaborator whose result the presenter does not read. -/
def call (c : κ) : Eff κ σ Unit := fun w => ⟨[c], w, .ok ()⟩

/-- A synchronous model method that returns a value. -/
def ask (c : κ) (f : σ → α) : Eff κ σ α := fun w => ⟨[c], w, .ok (f w.model)⟩

/-- A synchronous model method that changes the model. -/
def tell (c : κ) (f : σ → σ) : Eff κ σ Unit := fun w =>
  ⟨[c], { w with model := f w.model }, .ok ()⟩

/-- Awaiting an asynchronous model method: a rejection is thrown. -/
def await (c : κ) (f : σ → Except JSError α × σ) : Eff κ σ α := fun w =>
  ⟨[c], { w with model := (f w.model).2 }, (f w.model).1⟩

/-- The expression `error.message` of a caught value: reading it off `undefined`
or `null` throws a `TypeError`. -/
def messageOf (e : JSError) : Eff κ σ String :=
  match e with
  | .nullish => raise typeError
  | .value message => ret message

/-- A call on a collaborator outside the repository whose outcome is given. -/
def external (c : κ) (r : Except JSError α) : Eff κ σ α := fun w => ⟨[c], w, r⟩

/-- The call `window.addEventListener(type, callback, { once })`. -/
def addEventListener (type : WindowEvent) (callback : FunctionObject) (once : Bool) :
    Eff κ σ Unit := fun w =>
  ⟨[], { w with window := w.window.addEventListener type callback once }, .ok ()⟩

/-- The call `window.removeEventListener(type, callback)`. -/
def removeEventListener (type : WindowEvent) (callback : FunctionObject) : Eff κ σ Unit :=
  fun w => ⟨[], { w with window := w.window.removeEventListener type callback }, .ok ()⟩

/-- The expression `method.bind(self)`. -/
def bindThis (self : Nat) : Eff κ σ FunctionObject := fun w =>
  ⟨[], { w with window := (w.window.bind self).2 }, .ok (w.window.bind self).1⟩

/-- Running the same code `n` times in a row. -/
def times (x : Eff κ σ Unit) : Nat → Eff κ σ Unit
  | 0 => ret ()
  | n + 1 => andThen x (fun _ => times x n)

end Eff

/-! ## `home-presenter.js` -/

namespace HomePresenter

/-- The object `fetchInitialStories` and `fetchMoreStories` resolve with. -/
structure FetchResult where
  stories : List Story
  allLoaded : Bool
  deriving DecidableEq, Repr

/-- The feed model, as a transition system over its own state `σ`. -/
structure Model (σ : Type) where
  fetchInitialStories : σ → Except JSError FetchResult × σ
  fetchMoreStories : σ → Except JSError FetchResult × σ
  getStories : σ → List Story
  resetState : σ → σ

/-- Calls the feed presenter makes on its model and view. -/
inductive Call where
  | viewInit
  | setupMapObserver
  | fetchInitialStories
  | fetchMoreStories
  | getStories
  | resetState
  | removeSkeletonLoaders
  | showNoStoriesMessage
  | renderStoryItems (stories : List Story) (append : Bool)
  | showLoadMoreButton (visible : Bool)
  | populateMapMarkers (stories : List Story)
  | showStoryLoadError (error : JSError)
  | showLoadMoreError (error : JSError)
  | setLoadMoreButtonLoading (loading : Bool)
  | initMap
  | attachLoadMoreEvent
  | viewCleanup
  deriving DecidableEq, Repr

/-- A presenter instance: its identity, and the function object that the
expression `this.cleanup` evaluates to (the class's method, not bound). -/
structure Presenter where
  self : Nat
  cleanupMethod : FunctionObject
  deriving DecidableEq, Repr

variable {σ : Type}

/-- Method `#isMapInitialized()`: the source returns `true` unconditionally. -/
def isMapInitialized : Bool := true

/-- Method `#updateMapMarkers()`. -/
def updateMapMarkers (m : Model σ) : Eff Call σ Unit := do
  let stories ← Eff.ask .getStories m.getStories
  Eff.call (.populateMapMarkers stories)

/-- Method `#loadInitialStories()`. -/
def loadInitialStories (m : Model σ) : Eff Call σ Unit := do
  try
    let r ← Eff.await .fetchInitialStories m.fetchInitialStories
    Eff.call .removeSkeletonLoaders
    if r.stories.length = 0 then
      Eff.call .showNoStoriesMessage
    else
      Eff.call (.renderStoryItems r.stories false)
      Eff.call (.showLoadMoreButton (!r.allLoaded))
      if isMapInitialized then
        updateMapMarkers m
  catch error =>
    Eff.call (.showStoryLoadError error)

/-- Method `#loadMoreStories()`. -/
def loadMoreStories (m : Model σ) : Eff Call σ Unit := do
  Eff.call (.setLoadMoreButtonLoading true)
  try
    let r ← Eff.await .fetchMoreStories m.fetchMoreStories
    if r.stories.length > 0 then
      Eff.call (.renderStoryItems r.stories true)
      if isMapInitialized then
        updateMapMarkers m
    Eff.call (.showLoadMoreButton (!r.allLoaded))
  catch error =>
    Eff.call (.showLoadMoreError error)
  finally
    Eff.call (.setLoadMoreButtonLoading false)

/-- Method `#initializeMap()`; `success` is what `view.initMap()` returns. -/
def initializeMap (m : Model σ) (success : Bool) : Eff Call σ Unit := do
  Eff.call .initMap
  if success then
    let stories ← Eff.ask .getStories m.getStories
    if stories.length > 0 then
      updateMapMarkers m

/-- Method `#attachEventListeners()`: the two `removeEventListener` calls are
given `this.cleanup`, the two `addEventListener` calls a new
`this.cleanup.bind(this)` each. -/
def attachEventListeners (p : Presenter) : Eff Call σ Unit := do
  Eff.call .attachLoadMoreEvent
  Eff.removeEventListener .hashchange p.cleanupMethod
  Eff.removeEventListener .beforeunload p.cleanupMethod
  let onHashChange ← Eff.bindThis p.self
  Eff.addEventListener .hashchange onHashChange true
  let onBeforeUnload ← Eff.bindThis p.self
  Eff.addEventListener .beforeunload onBeforeUnload false

/-- Method `cleanup()`. -/
def cleanup (m : Model σ) (p : Presenter) : Eff Call σ Unit := do
  Eff.call .viewCleanup
  Eff.tell .resetState m.resetState
  Eff.removeEventListener .beforeunload p.cleanupMethod
  Eff.removeEventListener .hashchange p.cleanupMethod

/-- Method `init()`; `viewInit` is what `view.init()` returns. -/
def init (m : Model σ) (p : Presenter) (viewInit : Bool) : Eff Call σ Unit := do
  Eff.call .viewInit
  if !viewInit then
    return
  Eff.call .setupMapObserver
  loadInitialStories m
  attachEventListeners p

end HomePresenter

/-! ## `offline-page-presenter.js` -/

namespace OfflinePagePresenter

/-- The offline-list model, as a transition system over its own state `σ`. -/
structure Model (σ : Type) where
  loadStories : σ → Except JSError Unit × σ
  getStories : σ → List Story
  findStory : String → σ → Option Story
  deleteStory : String → σ → Except JSError Unit × σ
  isEmpty : σ → Bool

/-- Calls the offline-list presenter makes on its model, its view, the
notification helpers and the browser's `confirm`. -/
inductive Call where
  | initializeView
  | registerCallback
  | setLoadingState (loading : Bool)
  | loadStories
  | getStories
  | renderStories (stories : List Story)
  | viewShowErrorMessage
  | findStory (storyId : String)
  | confirm (message : String)
  | showDeleteLoading
  | deleteStory (storyId : String)
  | isEmpty
  | removeStoryElement (storyId : String)
  | resetDeleteButton
  | showSuccessMessage (message : String)
  | showErrorMessage (message : String)
  | viewCleanup
  deriving DecidableEq, Repr

/-- A presenter instance: its identity and `#boundCleanup`, the function object
made once by the constructor. -/
structure Presenter where
  self : Nat
  boundCleanup : FunctionObject
  deriving DecidableEq, Repr

variable {σ : Type}

/-- The constructor: `this.#boundCleanup = this._cleanup.bind(this)`. -/
def construct (self : Nat) : Eff Call σ Presenter := do
  let boundCleanup ← Eff.bindThis self
  return ⟨self, boundCleanup⟩

/-- Method `#attachCleanupListener()`. -/
def attachCleanupListener (p : Presenter) : Eff Call σ Unit := do
  Eff.removeEventListener .hashchange p.boundCleanup
  Eff.addEventListener .hashchange p.boundCleanup true

/-- Method `_cleanup()`. -/
def cleanup (p : Presenter) : Eff Call σ Unit := do
  Eff.call .viewCleanup
  Eff.removeEventListener .hashchange p.boundCleanup

/-- Method `initialize(container)`. -/
def initializePage (m : Model σ) (p : Presenter) : Eff Call σ Unit := do
  Eff.call .initializeView
  Eff.call .registerCallback
  Eff.call (.setLoadingState true)
  try
    Eff.await .loadStories m.loadStories
    let stories ← Eff.ask .getStories m.getStories
    Eff.call (.renderStories stories)
  catch _ =>
    Eff.call (.showErrorMessage "Gagal memuat cerita tersimpan.")
    Eff.call .viewShowErrorMessage
  finally
    Eff.call (.setLoadingState false)
    attachCleanupListener p

/-- The text of the confirmation prompt. -/
def confirmMessage (storyName : String) : String :=
  "Anda yakin ingin menghapus cerita \"" ++ storyName ++ "\" dari penyimpanan offline?"

/-- Method `#handleDeleteClick(event)`; `datasetId` is
`event.currentTarget.dataset.id` (`none` when the attribute is absent) and
`confirmed` is what `confirm` returns. -/
def handleDeleteClick (m : Model σ) (datasetId : Option String) (confirmed : Bool) :
    Eff Call σ Unit := do
  let some storyId := datasetId | return
  if storyId = "" then
    return
  let storyToDelete ← Eff.ask (.findStory storyId) (m.findStory storyId)
  let storyName :=
    match storyToDelete with
    | some story => story.name
    | none => storyId
  Eff.call (.confirm (confirmMessage storyName))
  if confirmed then
    Eff.call .showDeleteLoading
    try
      Eff.await (.deleteStory storyId) (m.deleteStory storyId)
      Eff.call (.showSuccessMessage "Cerita berhasil dihapus dari offline.")
      Eff.call (.removeStoryElement storyId)
      if (← Eff.ask .isEmpty m.isEmpty) then
        Eff.call (.renderStories [])
    catch error =>
      Eff.call (.showErrorMessage ("Gagal menghapus cerita: " ++ (← Eff.messageOf error)))
      Eff.call .resetDeleteButton

end OfflinePagePresenter

/-! ## `add-story-page-presenter.js` -/

namespace AddStoryPagePresenter

/-- A `File` picked in the file input: the presenter reads `size` (in bytes)
and `type` (the MIME type). -/
structure File where
  name : String
  size : Nat
  type : String
  deriving DecidableEq, Repr

/-- A location `{ lat, lon }`. -/
structure Location where
  lat : JSValue
  lon : JSValue
  deriving DecidableEq, Repr

/-- The argument of the geolocation success callback, `position.coords`. -/
structure Coords where
  latitude : JSValue
  longitude : JSValue
  deriving DecidableEq, Repr

/-- The argument of the geolocation error callback: its `code` and the three
constants the object carries. -/
structure GeolocationPositionError where
  code : Nat
  PERMISSION_DENIED : Nat
  POSITION_UNAVAILABLE : Nat
  TIMEOUT : Nat
  message : String
  deriving DecidableEq, Repr

/-- The composer model, as a transition system over its own state `σ`. -/
structure Model (σ : Type) where
  hasPhoto : σ → Bool
  setPhotoFile : File → σ → σ
  clearPhotoFile : σ → σ
  setLocation : Location → σ → σ
  submitStory : String → σ → Except JSError Unit × σ

/-- What the view hands back during one run.  An element of `domElements` that
the presenter dereferences is given by its presence: `form` carries whether
`querySelector('[aria-invalid="true"]')` finds an element, `descriptionInput`
its `value`, `locationFeedbackElement` its `textContent`. -/
structure View where
  isSubmitting : Bool
  validateForm : Bool
  validatePhoto : Bool → Bool
  form : Option Bool
  startCameraButton : Bool
  capturePhotoButton : Bool
  uploadFileButton : Bool
  photoFileInput : Bool
  getCurrentLocationButton : Bool
  descriptionInput : Option String
  formErrorMessageElement : Bool
  locationFeedbackElement : Option String

/-- Calls the composer presenter makes on its model, its view, the DOM, the
notification helpers and the timer. -/
inductive Call where
  | addListener (element : String) (event : String)
  | setLocationChangeCallback
  | initMapInput
  | focusDescription
  | preventDefault
  | validateForm
  | hasPhoto
  | validatePhoto (hasPhoto : Bool)
  | showFormError (message : String)
  | focusFirstInvalid
  | focusFormErrorMessage
  | setFormSubmittingState (submitting : Bool)
  | submitStory (description : String)
  | showSuccessMessage (message : String)
  | showErrorMessage (message : String)
  | setTimeout (milliseconds : Nat)
  | clearAllErrors
  | showElementError (message : String)
  | clearFileInputValue
  | clearPhotoSelection
  | clearPhotoFile
  | setPhotoFile (file : File)
  | displayPhotoPreview (file : File)
  | stopCamera
  | setLocation (location : Location)
  | updateSelectedCoordsText (location : Location)
  | updateLocationFeedback (message : String)
  | setGetLocationButtonState (loading : Bool)
  | updateMapMarker (lat : JSValue) (lon : JSValue)
  | viewCleanup
  deriving DecidableEq, Repr

variable {σ : Type}

/-- ECMAScript `WhiteSpace` and `LineTerminator` code points, which
`String.prototype.trim` strips. -/
def isJSWhiteSpace (c : Char) : Bool :=
  let n := c.toNat
  n = 0x9 || n = 0xA || n = 0xB || n = 0xC || n = 0xD || n = 0x20 || n = 0xA0 || n = 0x1680
    || (0x2000 ≤ n && n ≤ 0x200A) || n = 0x2028 || n = 0x2029 || n = 0x202F || n = 0x205F
    || n = 0x3000 || n = 0xFEFF

/-- JavaScript `s.trim()`. -/
def jsTrim (s : String) : String :=
  String.mk ((s.toList.dropWhile isJSWhiteSpace).reverse.dropWhile isJSWhiteSpace).reverse

/-- JavaScript `s.startsWith(head)`. -/
def jsStartsWith (s head : String) : Bool :=
  head.toList.isPrefixOf s.toList

/-- Method `cleanup()`: both `removeEventListener` calls are given a new
`this.cleanup.bind(this)`. -/
def cleanup (self : Nat) : Eff Call σ Unit := do
  let onBeforeUnload ← Eff.bindThis self
  Eff.removeEventListener .beforeunload onBeforeUnload
  let onHashChange ← Eff.bindThis self
  Eff.removeEventListener .hashchange onHashChange
  Eff.call .viewCleanup

/-- Method `setupEventListeners()`. -/
def setupEventListeners (self : Nat) (v : View) : Eff Call σ Unit := do
  if v.form.isSome then
    Eff.call (.addListener "form" "submit")
  if v.startCameraButton then
    Eff.call (.addListener "startCameraButton" "click")
  if v.capturePhotoButton then
    Eff.call (.addListener "capturePhotoButton" "click")
  if v.uploadFileButton && v.photoFileInput then
    Eff.call (.addListener "uploadFileButton" "click")
    Eff.call (.addListener "photoFileInput" "change")
  if v.getCurrentLocationButton then
    Eff.call (.addListener "getCurrentLocationButton" "click")
  let onBeforeUnload ← Eff.bindThis self
  Eff.addEventListener .beforeunload onBeforeUnload false
  let onHashChange ← Eff.bindThis self
  Eff.addEventListener .hashchange onHashChange false

/-- The callback that `setupMapInput()` hands to the view, run when the user
picks a location on the map. -/
def onLocationChange (m : Model σ) (location : Location) : Eff Call σ Unit := do
  Eff.tell (.setLocation location) (m.setLocation location)
  Eff.call (.updateSelectedCoordsText location)
  Eff.call (.updateLocationFeedback "")

/-- Method `setupMapInput()`. -/
def setupMapInput : Eff Call σ Unit := do
  Eff.call .setLocationChangeCallback
  Eff.call .initMapInput

/-- Method `init()`. -/
def init (self : Nat) (v : View) : Eff Call σ Unit := do
  setupEventListeners self v
  setupMapInput
  Eff.call .focusDescription

/-- Method `handleFormSubmit(event)`.  The `then` and `catch` callbacks of the
promise returned by `submitStory` are run in place, once it has settled. -/
def handleFormSubmit (m : Model σ) (self : Nat) (v : View) : Eff Call σ Unit := do
  Eff.call .preventDefault
  if v.isSubmitting then
    return
  Eff.call .validateForm
  let isFormValid := v.validateForm
  let hasPhoto ← Eff.ask .hasPhoto m.hasPhoto
  Eff.call (.validatePhoto hasPhoto)
  let isPhotoValid := v.validatePhoto hasPhoto
  if !isFormValid || !isPhotoValid then
    Eff.call (.showFormError "Periksa kembali isian form yang wajib diisi.")
    let some firstError := v.form | throw typeError
    if firstError then
      Eff.call .focusFirstInvalid
    else
      if v.formErrorMessageElement then
        Eff.call .focusFormErrorMessage
      else
        throw typeError
    return
  let some value := v.descriptionInput | throw typeError
  let description := jsTrim value
  Eff.call (.setFormSubmittingState true)
  try
    Eff.await (.submitStory description) (m.submitStory description)
    Eff.call (.showSuccessMessage "Cerita baru berhasil dibagikan!")
    cleanup self
    Eff.call (.setTimeout 1500)
  catch e =>
    Eff.call (.showFormError ("Gagal mengirim cerita: " ++ (← Eff.messageOf e)))
    Eff.call (.setFormSubmittingState false)

/-- The statement `photoFileInput.value = ''`. -/
def clearFileInput (v : View) : Eff Call σ Unit := do
  if v.photoFileInput then
    Eff.call .clearFileInputValue
  else
    throw typeError

/-- Method `handleFileInputChange(event)`; `files` is `event.target.files`
(`none` when it is `null` or `undefined`). -/
def handleFileInputChange (m : Model σ) (v : View) (files : Option (List File)) :
    Eff Call σ Unit := do
  let some file := files.bind List.head? | return
  Eff.call .clearAllErrors
  let maxSizeMB := 1
  if file.size > maxSizeMB * 1024 * 1024 then
    Eff.call (.showElementError ("Ukuran file melebihi " ++ toString maxSizeMB ++ "MB."))
    clearFileInput v
    Eff.call .clearPhotoSelection
    Eff.tell .clearPhotoFile m.clearPhotoFile
    return
  if !jsStartsWith file.type "image/" then
    Eff.call (.showElementError "File yang dipilih bukan gambar.")
    clearFileInput v
    Eff.call .clearPhotoSelection
    Eff.tell .clearPhotoFile m.clearPhotoFile
    return
  Eff.tell (.setPhotoFile file) (m.setPhotoFile file)
  Eff.call (.displayPhotoPreview file)
  Eff.call .stopCamera
  Eff.call .focusDescription

/-- Method `geolocationSuccess(position)`; `coords` is `position.coords`. -/
def geolocationSuccess (m : Model σ) (coords : Coords) : Eff Call σ Unit := do
  let lat := coords.latitude
  let lon := coords.longitude
  let location : Location := { lat := lat, lon := lon }
  Eff.tell (.setLocation location) (m.setLocation location)
  Eff.call (.updateSelectedCoordsText location)
  Eff.call (.updateLocationFeedback "Lokasi ditemukan!")
  Eff.call (.setGetLocationButtonState false)
  Eff.call (.updateMapMarker lat lon)
  Eff.call (.setTimeout 2500)

/-- The timer callback of `geolocationSuccess`, run 2500 ms later. -/
def locationFoundTimeout (v : View) : Eff Call σ Unit := do
  if v.locationFeedbackElement = some "Lokasi ditemukan!" then
    Eff.call (.updateLocationFeedback "")

/-- The `switch` of `geolocationError(error)`: the message chosen by the code. -/
def geolocationErrorMessage (error : GeolocationPositionError) : String :=
  if error.code = error.PERMISSION_DENIED then "Anda menolak izin akses lokasi."
  else if error.code = error.POSITION_UNAVAILABLE then "Informasi lokasi tidak tersedia."
  else if error.code = error.TIMEOUT then "Waktu habis saat mencoba mengambil lokasi."
  else "Tidak dapat mengambil lokasi Anda."

/-- Method `geolocationError(error)`. -/
def geolocationError (error : GeolocationPositionError) : Eff Call σ Unit := do
  let message := geolocationErrorMessage error
  Eff.call (.updateLocationFeedback ("Error: " ++ message))
  Eff.call (.showErrorMessage ("Gagal mendapatkan lokasi: " ++ message))
  Eff.call (.setGetLocationButtonState false)

end AddStoryPagePresenter

/-! ## `detail-story-presenter.js` -/

namespace DetailStoryPresenter

/-- The detail model, as a transition system over its own state `σ`. -/
structure Model (σ : Type) where
  fetchStory : JSValue → σ → Except JSError Story × σ
  isOfflineSaved : σ → Bool
  checkOfflineStatus : JSValue → σ → Except JSError Unit × σ
  getStory : σ → Option Story
  deleteStoryOffline : σ → Except JSError Unit × σ
  saveStoryOffline : σ → Except JSError Unit × σ

/-- What the view hands back during one run: `_blobUrl`; the element of
`getMapContainer()`, with whether it has a `_leaflet_id`; the map of
`getMapInstance()`, with whether its `remove` is a function. -/
structure View where
  blobUrl : JSValue
  mapContainer : Option Bool
  mapInstance : Option Bool

/-- What the map utilities hand back during one run: the map of the global
`getMapInstance()`, with the id of its container if it has one; whether
`initMap` returns a map; and the outcome of a map's `remove()`. -/
structure MapUtils where
  mapInstance : Option (Option String)
  initMap : Except JSError Bool
  remove : Except JSError Unit

/-- Calls the detail presenter makes on its model, its view, the map utilities
and the notification helpers. -/
inductive Call where
  | hideLoading
  | showLoading
  | showError (message : String) (title : Option String)
  | fetchStory (storyId : JSValue)
  | isOfflineSaved
  | updatePageTitle (name : String) (isOffline : Bool)
  | showOfflineNotification
  | checkOfflineStatus (storyId : JSValue)
  | renderStoryDetails (story : Story) (isOffline : Bool)
  | setupImageClickListener (handler : FunctionObject)
  | setupSaveOfflineButton (handler : FunctionObject)
  | getStory
  | getMapContainer
  | setupMapLoadingIndicator
  | getGlobalMapInstance
  | removeMap
  | initMap (lat : JSValue) (lon : JSValue) (zoom : Nat)
  | setMapInstance
  | addMarker (lat : JSValue) (lon : JSValue) (popup : String)
  | openMarkerPopups
  | showMapError
  | stopPropagation
  | openImageModal (url : JSValue) (caption : String)
  | setSaveButtonLoading
  | deleteStoryOffline
  | saveStoryOffline
  | showSuccessMessage (message : String)
  | showErrorMessage (message : String)
  | updateSaveButtonState (saved : Bool)
  | enableSaveButton
  | removeImageClickListener (handler : FunctionObject)
  | removeSaveOfflineButtonListener (handler : FunctionObject)
  | getMapInstance
  | viewCleanup
  deriving DecidableEq, Repr

/-- A presenter instance: its identity and the three function objects made once
by the constructor. -/
structure Presenter where
  self : Nat
  boundHandleImageClick : FunctionObject
  boundHandleSaveOfflineClick : FunctionObject
  boundCleanup : FunctionObject
  deriving DecidableEq, Repr

variable {σ : Type}

/-- The constructor. -/
def construct (self : Nat) : Eff Call σ Presenter := do
  let boundHandleImageClick ← Eff.bindThis self
  let boundHandleSaveOfflineClick ← Eff.bindThis self
  let boundCleanup ← Eff.bindThis self
  return ⟨self, boundHandleImageClick, boundHandleSaveOfflineClick, boundCleanup⟩

/-- The expression `name || 'Anonim'`. -/
def nameOrAnonim (name : String) : String :=
  if name = "" then "Anonim" else name

/-- Method `_initStoryMap()`. -/
def initStoryMap (m : Model σ) (v : View) (u : MapUtils) : Eff Call σ Unit := do
  let some story ← Eff.ask .getStory m.getStory | return
  if !story.lat.isNumber || !story.lon.isNumber then
    return
  Eff.call .getMapContainer
  let some hasLeafletId := v.mapContainer | return
  Eff.call .setupMapLoadingIndicator
  try
    if hasLeafletId then
      Eff.call .getGlobalMapInstance
      match u.mapInstance with
      | none => pure ()
      | some none => throw typeError
      | some (some containerId) =>
        if containerId = "detail-story-map" then
          Eff.external .removeMap u.remove
    let map ← Eff.external (.initMap story.lat story.lon 15) u.initMap
    Eff.call .setMapInstance
    if map then
      let popupContent := "Lokasi cerita oleh " ++ nameOrAnonim story.name
      Eff.call (.addMarker story.lat story.lon popupContent)
      Eff.call .openMarkerPopups
    else
      Eff.call .showMapError
  catch _ =>
    Eff.call .showMapError

/-- Method `_attachCleanupListener()`. -/
def attachCleanupListener (p : Presenter) : Eff Call σ Unit := do
  Eff.removeEventListener .hashchange p.boundCleanup
  Eff.addEventListener .hashchange p.boundCleanup true

/-- Method `init(storyId)`. -/
def init (m : Model σ) (p : Presenter) (v : View) (u : MapUtils) (storyId : JSValue) :
    Eff Call σ Unit := do
  if !storyId.truthy then
    Eff.call .hideLoading
    Eff.call (.showError "Tidak dapat memuat cerita: ID tidak ditemukan di URL."
      (some "Error - ID Tidak Ditemukan"))
    return
  Eff.call .showLoading
  try
    let story ← Eff.await (.fetchStory storyId) (m.fetchStory storyId)
    let isOffline ← Eff.ask .isOfflineSaved m.isOfflineSaved
    Eff.call (.updatePageTitle story.name isOffline)
    if isOffline then
      Eff.call .showOfflineNotification
    else
      Eff.await (.checkOfflineStatus story.id) (m.checkOfflineStatus story.id)
    Eff.call (.renderStoryDetails story (← Eff.ask .isOfflineSaved m.isOfflineSaved))
    Eff.call .hideLoading
    Eff.call (.setupImageClickListener p.boundHandleImageClick)
    Eff.call (.setupSaveOfflineButton p.boundHandleSaveOfflineClick)
    if story.lat.truthy && story.lat.isNumber && story.lon.truthy && story.lon.isNumber then
      initStoryMap m v u
    attachCleanupListener p
  catch error =>
    Eff.call .hideLoading
    Eff.call (.showError
      ("Gagal memuat cerita: " ++ (← Eff.messageOf error)
        ++ ". Versi offline juga tidak ditemukan.") none)

/-- Method `_handleImageClick(event)`. -/
def handleImageClick (m : Model σ) (v : View) : Eff Call σ Unit := do
  Eff.call .stopPropagation
  let some story ← Eff.ask .getStory m.getStory | return
  let imageUrl := if v.blobUrl.truthy then v.blobUrl else story.photoUrl
  if imageUrl.truthy then
    Eff.call (.openImageModal imageUrl ("Cerita oleh " ++ nameOrAnonim story.name))

/-- Method `_handleSaveOfflineClick()`. -/
def handleSaveOfflineClick (m : Model σ) : Eff Call σ Unit := do
  let some story ← Eff.ask .getStory m.getStory | return
  if !story.id.truthy then
    return
  Eff.call .setSaveButtonLoading
  try
    if (← Eff.ask .isOfflineSaved m.isOfflineSaved) then
      Eff.await .deleteStoryOffline m.deleteStoryOffline
      Eff.call (.showSuccessMessage
        ("Cerita \"" ++ story.name ++ "\" dihapus dari penyimpanan offline."))
    else
      Eff.await .saveStoryOffline m.saveStoryOffline
      Eff.call (.showSuccessMessage
        ("Cerita \"" ++ story.name ++ "\" disimpan untuk akses offline."))
    Eff.call (.updateSaveButtonState (← Eff.ask .isOfflineSaved m.isOfflineSaved))
  catch error =>
    let action := if (← Eff.ask .isOfflineSaved m.isOfflineSaved) then "menghapus" else "menyimpan"
    Eff.call (.showErrorMessage
      ("Gagal " ++ action ++ " cerita: " ++ (← Eff.messageOf error)))
  finally
    Eff.call .enableSaveButton
    Eff.call (.updateSaveButtonState (← Eff.ask .isOfflineSaved m.isOfflineSaved))

/-- Method `_cleanup()`. -/
def cleanup (p : Presenter) (v : View) (u : MapUtils) : Eff Call σ Unit := do
  Eff.call (.removeImageClickListener p.boundHandleImageClick)
  Eff.call (.removeSaveOfflineButtonListener p.boundHandleSaveOfflineClick)
  Eff.call .getMapInstance
  if v.mapInstance = some true then
    try
      Eff.external .removeMap u.remove
    catch _ =>
      pure ()
  else
    Eff.call .getGlobalMapInstance
    if u.mapInstance = some (some "detail-story-map") then
      try
        Eff.external .removeMap u.remove
      catch _ =>
        pure ()
  Eff.removeEventListener .hashchange p.boundCleanup
  Eff.call .viewCleanup

end DetailStoryPresenter

/-! ## `home-presenter.js`: the VAPID key -/

namespace HomePresenter

/-- The base64 alphabet (RFC 4648, Table 1), in the order of the values 0 to 63. -/
def base64Alphabet : List Char :=
  "ABCDEFGHIJKLMNOPQRSTUVWXYZabcdefghijklmnopqrstuvwxyz0123456789+/".toList

/-- ASCII whitespace: TAB, LF, FF, CR and SPACE. -/
def isAsciiWhitespace (c : Char) : Bool :=
  c.toNat = 9 || c.toNat = 10 || c.toNat = 12 || c.toNat = 13 || c.toNat = 32

/-- Removing one or two `=` from the end of the data, if it ends with them. -/
def removeTrailingEquals (data : List Char) : List Char :=
  match data.reverse with
  | '=' :: '=' :: rest => rest.reverse
  | '=' :: rest => rest.reverse
  | _ => data

/-- The state of the decoding loop: the bit buffer read as a number, the number
of bits in it, and the bytes put out so far. -/
structure DecodeState where
  buffer : Nat
  bits : Nat
  output : List Nat
  deriving DecidableEq, Repr

/-- One round of the decoding loop: six bits are appended to the buffer; a full
buffer of 24 bits is put out as three bytes and emptied. -/
def decodeStep (st : DecodeState) (c : Char) : DecodeState :=
  let buffer := st.buffer * 64 + base64Alphabet.indexOf c
  let bits := st.bits + 6
  if bits = 24 then
    ⟨0, 0, st.output ++ [buffer / 65536, buffer / 256 % 256, buffer % 256]⟩
  else ⟨buffer, bits, st.output⟩

/-- The end of the decoding loop: of 12 remaining bits the last four are dropped
and one byte is put out, of 18 remaining bits the last two are dropped and two
bytes are put out. -/
def decodeFinish (st : DecodeState) : List Nat :=
  if st.bits = 12 then st.output ++ [st.buffer / 16]
  else if st.bits = 18 then st.output ++ [st.buffer / 4 / 256, st.buffer / 4 % 256]
  else st.output

/-- Modelled from the spec: `window.atob`, the browser's base64 decoding of a
string into the string of its bytes, which is not part of the repository.  The
steps are those of "forgiving-base64 decode" (WHATWG Infra), which `atob` runs:
ASCII whitespace is removed; if the length is then a multiple of 4, one or two
`=` at the end are removed; a length of 1 modulo 4 and a character outside the
base64 alphabet are failures, on which `atob` throws; otherwise the decoding
loop runs.  The result is given by the character codes of the string. -/
def atob (data : List Char) : Option (List Nat) :=
  let data1 := data.filter (fun c => !isAsciiWhitespace c)
  let data2 := if data1.length % 4 = 0 then removeTrailingEquals data1 else data1
  if data2.length % 4 = 1 then none
  else if data2.any (fun c => !base64Alphabet.contains c) then none
  else some (decodeFinish (data2.foldl decodeStep ⟨0, 0, []⟩))

/-- The `length` of a JavaScript string given by its code points: the number of
UTF-16 code units. -/
def jsLength (s : List Char) : Nat :=
  (s.map fun c => if c.toNat < 65536 then 1 else 2).sum

/-- The padding `'='.repeat((4 - base64String.length % 4) % 4)`. -/
def base64Padding (base64String : List Char) : List Char :=
  List.replicate ((4 - jsLength base64String % 4) % 4) '='

/-- The two `replace` calls: every `-` becomes `+`, then every `_` becomes `/`. -/
def toStandardAlphabet (s : List Char) : List Char :=
  (s.map fun c => if c = '-' then '+' else c).map fun c => if c = '_' then '/' else c

/-- What the two `replace` calls make of one character. -/
def standardChar (c : Char) : Char :=
  if (if c = '-' then '+' else c) = '_' then '/' else (if c = '-' then '+' else c)

/-- Method `#urlBase64ToUint8Array(base64String)`.  A string is given by its
code points, the `Uint8Array` by its elements; storing into it reduces modulo
256. -/
def urlBase64ToUint8Array (base64String : List Char) : Except JSError (List Nat) :=
  let padding := base64Padding base64String
  let base64 := toStandardAlphabet (base64String ++ padding)
  match atob base64 with
  | none => .error (.value "InvalidCharacterError")
  | some rawData =>
    let outputArray := List.replicate rawData.length 0
    .ok ((List.range rawData.length).foldl
      (fun out i => out.set i (rawData.getD i 0 % 256)) outputArray)

/-- The URL-safe base64 alphabet (RFC 4648, Table 2), in the order of the values
0 to 63. -/
def base64urlAlphabet : List Char :=
  "ABCDEFGHIJKLMNOPQRSTUVWXYZabcdefghijklmnopqrstuvwxyz0123456789-_".toList

/-- The six bits of a value below 64, most significant first. -/
def sixBits (v : Nat) : List Nat :=
  [v / 32 % 2, v / 16 % 2, v / 8 % 2, v / 4 % 2, v / 2 % 2, v % 2]

/-- The octets of a bit string, most significant bit first; bits left over at
the end are dropped. -/
def octets : List Nat → List Nat
  | b7 :: b6 :: b5 :: b4 :: b3 :: b2 :: b1 :: b0 :: rest =>
    (b7 * 128 + b6 * 64 + b5 * 32 + b4 * 16 + b3 * 8 + b2 * 4 + b1 * 2 + b0) :: octets rest
  | _ => []

/-- The base64url decoding as RFC 4648 describes it, written independently of the
code: every character stands for the six bits of its value in the URL-safe
alphabet, and the bits, taken eight at a time, are the octets. -/
def base64urlDecode (s : List Char) : List Nat :=
  octets (s.flatMap fun c => sixBits (base64urlAlphabet.indexOf c))

/-- The character of a value below 64 in the URL-safe alphabet. -/
def base64urlChar (v : Nat) : Char :=
  base64urlAlphabet.getD v 'A'

/-- The base64url encoding of RFC 4648, without padding: three octets make 24
bits, written as four characters of six bits each; a single octet at the end is
extended with four zero bits to two characters, two octets with two zero bits to
three characters. -/
def base64urlEncode : List Nat → List Char
  | a :: b :: c :: rest =>
    base64urlChar ((a * 65536 + b * 256 + c) / 262144)
      :: base64urlChar ((a * 65536 + b * 256 + c) / 4096 % 64)
      :: base64urlChar ((a * 65536 + b * 256 + c) / 64 % 64)
      :: base64urlChar ((a * 65536 + b * 256 + c) % 64) :: base64urlEncode rest
  | [a, b] =>
    [base64urlChar ((a * 256 + b) * 4 / 4096), base64urlChar ((a * 256 + b) * 4 / 64 % 64),
      base64urlChar ((a * 256 + b) * 4 % 64)]
  | [a] => [base64urlChar (a * 16 / 64), base64urlChar (a * 16 % 64)]
  | [] => []

end HomePresenter

/-! ## Observations on traces -/

/-- The arguments of the `view.showLoadMoreButton` calls of a trace, in order. -/
def HomePresenter.loadMoreButtonCalls (trace : List HomePresenter.Call) : List Bool :=
  trace.filterMap fun c =>
    match c with
    | .showLoadMoreButton visible => some visible
    | _ => none

/-- The messages of the `view.updateLocationFeedback` calls of a trace, in
order. -/
def AddStoryPagePresenter.locationFeedbackCalls (trace : List AddStoryPagePresenter.Call) :
    List String :=
  trace.filterMap fun c =>
    match c with
    | .updateLocationFeedback message => some message
    | _ => none

/-- The asynchronous methods of the detail model, as opposed to its getters
`getStory` and `isOfflineSaved`. -/
def DetailStoryPresenter.Call.isModelOperation : DetailStoryPresenter.Call → Bool
  | .fetchStory _ => true
  | .checkOfflineStatus _ => true
  | .deleteStoryOffline => true
  | .saveStoryOffline => true
  | _ => false

/-- The offline flags of the `view.updatePageTitle` calls of a trace, in order. -/
def DetailStoryPresenter.pageTitleFlags (trace : List DetailStoryPresenter.Call) : List Bool :=
  trace.filterMap fun c =>
    match c with
    | .updatePageTitle _ isOffline => some isOffline
    | _ => none

/-- The offline flags of the `view.renderStoryDetails` calls of a trace, in
order. -/
def DetailStoryPresenter.renderFlags (trace : List DetailStoryPresenter.Call) : List Bool :=
  trace.filterMap fun c =>
    match c with
    | .renderStoryDetails _ isOffline => some isOffline
    | _ => none

/-! ## Sample collaborators -/

/-- A window with no listener, in which objects 0 to 3 are allocated. -/
def exampleWindow : Window := ⟨[], 4⟩

/-- A story with the given id and name, without photo and coordinates. -/
def exampleStory (id name : String) : Story :=
  ⟨.string id, name, .undefined, .undefined, .undefined⟩

/-- A feed model over the stories still to be served and those served so far;
it serves two stories per page. -/
def HomePresenter.exampleModel : HomePresenter.Model (List Story × List Story) where
  fetchInitialStories := fun s =>
    (.ok ⟨s.1.take 2, decide (s.1.length ≤ 2)⟩, (s.1.drop 2, s.1.take 2))
  fetchMoreStories := fun s =>
    (.ok ⟨s.1.take 2, decide (s.1.length ≤ 2)⟩, (s.1.drop 2, s.2 ++ s.1.take 2))
  getStories := fun s => s.2
  resetState := fun s => (s.1, [])

/-- Feed presenter instance 1, whose `cleanup` method is object 0. -/
def HomePresenter.examplePresenter : HomePresenter.Presenter := ⟨1, ⟨0, none⟩⟩

/-- An offline-list model over the saved stories; deleting never fails. -/
def OfflinePagePresenter.exampleModel : OfflinePagePresenter.Model (List Story) where
  loadStories := fun s => (.ok (), s)
  getStories := fun s => s
  findStory := fun storyId s => s.find? (fun story => story.id == .string storyId)
  deleteStory := fun storyId s => (.ok (), s.filter (fun story => story.id != .string storyId))
  isEmpty := fun s => s.isEmpty

/-- A composer model over the photo picked so far; submitting fails without a
photo. -/
def AddStoryPagePresenter.exampleModel :
    AddStoryPagePresenter.Model (Option AddStoryPagePresenter.File) where
  hasPhoto := fun s => s.isSome
  setPhotoFile := fun file _ => some file
  clearPhotoFile := fun _ => none
  setLocation := fun _ s => s
  submitStory := fun _ s =>
    match s with
    | some _ => (.ok (), none)
    | none => (.error (.value "photo is required"), none)

/-- A composer view with every element present, a form that validates, and a
description to send. -/
def AddStoryPagePresenter.exampleView : AddStoryPagePresenter.View where
  isSubmitting := false
  validateForm := true
  validatePhoto := fun hasPhoto => hasPhoto
  form := some false
  startCameraButton := true
  capturePhotoButton := true
  uploadFileButton := true
  photoFileInput := true
  getCurrentLocationButton := true
  descriptionInput := some "  Jalan pagi  "
  formErrorMessageElement := true
  locationFeedbackElement := some ""

/-- The error object of the browser: the constants are 1, 2 and 3. -/
def AddStoryPagePresenter.exampleError (code : Nat) :
    AddStoryPagePresenter.GeolocationPositionError :=
  ⟨code, 1, 2, 3, "User denied Geolocation"⟩

/-- The state of the sample detail model: the story loaded, whether it is saved
offline, and whether the offline store works. -/
structure DetailStoryPresenter.ExampleState where
  story : Option Story
  saved : Bool
  storeWorks : Bool
  deriving DecidableEq, Repr

/-- A detail model that serves the story "Pantai" under id "story-1"; saving and
deleting fail when the store does not work. -/
def DetailStoryPresenter.exampleModel :
    DetailStoryPresenter.Model DetailStoryPresenter.ExampleState where
  fetchStory := fun storyId s =>
    if storyId = .string "story-1" then
      (.ok (exampleStory "story-1" "Pantai"), { s with story := some (exampleStory "story-1" "Pantai") })
    else (.error (.value "Not Found"), s)
  isOfflineSaved := fun s => s.saved
  checkOfflineStatus := fun _ s => (.ok (), s)
  getStory := fun s => s.story
  deleteStoryOffline := fun s =>
    if s.storeWorks then (.ok (), { s with saved := false })
    else (.error (.value "store is closed"), s)
  saveStoryOffline := fun s =>
    if s.storeWorks then (.ok (), { s with saved := true })
    else (.error (.value "store is closed"), s)

/-- Detail presenter instance 1 with its three bound handlers, objects 1 to 3. -/
def DetailStoryPresenter.examplePresenter : DetailStoryPresenter.Presenter :=
  ⟨1, ⟨1, some 1⟩, ⟨2, some 1⟩, ⟨3, some 1⟩⟩

/-- A detail view without blob, map container and map. -/
def DetailStoryPresenter.exampleView : DetailStoryPresenter.View := ⟨.undefined, none, none⟩

/-- Map utilities without a current map; `initMap` gives a map. -/
def DetailStoryPresenter.exampleMapUtils : DetailStoryPresenter.MapUtils :=
  ⟨none, .ok true, .ok ()⟩

/-- A detail model like the sample one, except that its offline store rejects
every save and every delete with `undefined`. -/
def DetailStoryPresenter.nullishRejectionModel :
    DetailStoryPresenter.Model DetailStoryPresenter.ExampleState :=
  { DetailStoryPresenter.exampleModel with
    deleteStoryOffline := fun s => (.error .nullish, s)
    saveStoryOffline := fun s => (.error .nullish, s) }

/-- A detail model that serves the given story from the network whatever the id,
and finds it in the offline store when `inStore` holds: `checkOfflineStatus`
then sets the offline-saved status. -/
def DetailStoryPresenter.servingModel (story : Story) (inStore : Bool) :
    DetailStoryPresenter.Model DetailStoryPresenter.ExampleState where
  fetchStory := fun _ s => (.ok story, { s with story := some story })
  isOfflineSaved := fun s => s.saved
  checkOfflineStatus := fun _ s => (.ok (), { s with saved := inStore })
  getStory := fun s => s.story
  deleteStoryOffline := fun s => (.ok (), { s with saved := false })
  saveStoryOffline := fun s => (.ok (), { s with saved := true })

/-- A story on the equator (Pontianak): latitude 0, longitude 109.3. -/
def equatorStory : Story :=
  ⟨.string "story-2", "Khatulistiwa", .undefined, .number 0, .number (1093 / 10)⟩

/-- A story in Jakarta: latitude -6.2, longitude 106.8. -/
def jakartaStory : Story :=
  ⟨.string "story-3", "Monas", .undefined, .number (-31 / 5), .number (534 / 5)⟩

/-- A detail view with a map container that holds no map yet. -/
def DetailStoryPresenter.mapView : DetailStoryPresenter.View := ⟨.undefined, some false, none⟩

/-! ## Running presenter code

How `Eff.run` computes through each construct of the embedding. -/

namespace Eff
variable {κ σ α β : Type}

@[simp]
theorem run_pure (a : α) (w : World σ) :
    (pure a : Eff κ σ α).run w = ⟨[], w, .ok a⟩ := rfl

@[simp]
theorem run_ret (a : α) (w : World σ) :
    (ret a : Eff κ σ α).run w = ⟨[], w, .ok a⟩ := rfl

@[simp]
theorem run_bind (x : Eff κ σ α) (f : α → Eff κ σ β) (w : World σ) :
    (x >>= f).run w =
      match x.run w with
      | ⟨t, w1, .ok a⟩ => ⟨t ++ ((f a).run w1).trace, ((f a).run w1).world, ((f a).run w1).result⟩
      | ⟨t, w1, .error e⟩ => ⟨t, w1, .error e⟩ := by
  show andThen x f w = _
  unfold andThen run
  rcases x w with ⟨t, w1, a | e⟩ <;> rfl

@[simp]
theorem run_andThen (x : Eff κ σ α) (f : α → Eff κ σ β) (w : World σ) :
    (andThen x f).run w =
      match x.run w with
      | ⟨t, w1, .ok a⟩ => ⟨t ++ ((f a).run w1).trace, ((f a).run w1).world, ((f a).run w1).result⟩
      | ⟨t, w1, .error e⟩ => ⟨t, w1, .error e⟩ := run_bind x f w

@[simp]
theorem run_call (c : κ) (w : World σ) :
    (call c : Eff κ σ Unit).run w = ⟨[c], w, .ok ()⟩ := rfl

@[simp]
theorem run_ask (c : κ) (f : σ → α) (w : World σ) :
    (ask c f : Eff κ σ α).run w = ⟨[c], w, .ok (f w.model)⟩ := rfl

@[simp]
theorem run_tell (c : κ) (f : σ → σ) (w : World σ) :
    (tell c f : Eff κ σ Unit).run w = ⟨[c], { w with model := f w.model }, .ok ()⟩ := rfl

@[simp]
theorem run_await (c : κ) (f : σ → Except JSError α × σ) (w : World σ) :
    (await c f : Eff κ σ α).run w = ⟨[c], { w with model := (f w.model).2 }, (f w.model).1⟩ := rfl

@[simp]
theorem run_external (c : κ) (r : Except JSError α) (w : World σ) :
    (external c r : Eff κ σ α).run w = ⟨[c], w, r⟩ := rfl

@[simp]
theorem run_messageOf_nullish (w : World σ) :
    (messageOf .nullish : Eff κ σ String).run w = ⟨[], w, .error typeError⟩ := rfl

@[simp]
theorem run_messageOf_value (message : String) (w : World σ) :
    (messageOf (.value message) : Eff κ σ String).run w = ⟨[], w, .ok message⟩ := rfl

@[simp]
theorem run_throw (e : JSError) (w : World σ) :
    (throw e : Eff κ σ α).run w = ⟨[], w, .error e⟩ := rfl

@[simp]
theorem run_addEventListener (type : WindowEvent) (f : FunctionObject) (once : Bool)
    (w : World σ) :
    (addEventListener type f once : Eff κ σ Unit).run w =
      ⟨[], { w with window := w.window.addEventListener type f once }, .ok ()⟩ := rfl

@[simp]
theorem run_removeEventListener (type : WindowEvent) (f : FunctionObject) (w : World σ) :
    (removeEventListener type f : Eff κ σ Unit).run w =
      ⟨[], { w with window := w.window.removeEventListener type f }, .ok ()⟩ := rfl

@[simp]
theorem run_bindThis (self : Nat) (w : World σ) :
    (bindThis self : Eff κ σ FunctionObject).run w =
      ⟨[], { w with window := (w.window.bind self).2 }, .ok (w.window.bind self).1⟩ := rfl

@[simp]
theorem run_tryCatch (body : Eff κ σ α) (handler : JSError → Eff κ σ α) (w : World σ) :
    (tryCatch body handler).run w =
      match body.run w with
      | ⟨t, w1, .ok a⟩ => ⟨t, w1, .ok a⟩
      | ⟨t, w1, .error e⟩ =>
        ⟨t ++ ((handler e).run w1).trace, ((handler e).run w1).world, ((handler e).run w1).result⟩ := by
  show catchError body handler w = _
  unfold catchError run
  rcases body w with ⟨t, w1, a | e⟩ <;> rfl

@[simp]
theorem run_tryFinally (body : Eff κ σ α) (fin : Eff κ σ Unit) (w : World σ) :
    (tryFinally body fin).run w =
      match body.run w with
      | ⟨t, w1, .ok a⟩ =>
        match fin.run w1 with
        | ⟨t2, w2, .ok _⟩ => ⟨t ++ t2, w2, .ok a⟩
        | ⟨t2, w2, .error e2⟩ => ⟨t ++ t2, w2, .error e2⟩
      | ⟨t, w1, .error e⟩ =>
        match fin.run w1 with
        | ⟨t2, w2, .ok _⟩ => ⟨t ++ t2, w2, .error e⟩
        | ⟨t2, w2, .error e2⟩ => ⟨t ++ t2, w2, .error e2⟩ := by
  have h : (tryFinally body fin).run w
      = andThen (finallyDo body (fun _ => fin)) (fun p => ret p.1) w := rfl
  rw [h]
  unfold andThen finallyDo run
  rcases body w with ⟨t, w1, a | e⟩ <;> simp only <;>
    rcases fin w1 with ⟨t2, w2, b | e2⟩ <;> simp [ret]

@[simp]
theorem run_ite (c : Prop) [Decidable c] (x y : Eff κ σ α) (w : World σ) :
    (if c then x else y).run w = if c then x.run w else y.run w := by
  split <;> rfl

end Eff

/-! ## The listener registry -/

@[simp]
theorem Window.nextId_removeEventListener (w : Window) (type : WindowEvent)
    (f : FunctionObject) : (w.removeEventListener type f).nextId = w.nextId := rfl

@[simp]
theorem Window.nextId_addEventListener (w : Window) (type : WindowEvent)
    (f : FunctionObject) (once : Bool) : (w.addEventListener type f once).nextId = w.nextId := by
  unfold Window.addEventListener
  split <;> rfl

@[simp]
theorem Window.bind_fst (w : Window) (self : Nat) :
    (w.bind self).1 = ⟨w.nextId, some self⟩ := rfl

@[simp]
theorem Window.nextId_bind (w : Window) (self : Nat) :
    (w.bind self).2.nextId = w.nextId + 1 := rfl

@[simp]
theorem Window.listeners_bind (w : Window) (self : Nat) :
    (w.bind self).2.listeners = w.listeners := rfl

/-- Removing a callback leaves no registration of it behind. -/
theorem Window.any_isFor_removeEventListener (w : Window) (type : WindowEvent)
    (f : FunctionObject) :
    (w.removeEventListener type f).listeners.any (fun l => l.isFor type f) = false := by
  simp [Window.removeEventListener, List.any_eq_false]

/-- Removing a callback, registering it and removing it again amounts to
removing it once. -/
theorem Window.remove_add_remove (w : Window) (type : WindowEvent) (f : FunctionObject)
    (once : Bool) :
    (((w.removeEventListener type f).addEventListener type f once).removeEventListener type f)
      = w.removeEventListener type f := by
  have h := Window.any_isFor_removeEventListener w type f
  simp only [Window.addEventListener, h]
  simp [Window.removeEventListener, List.filter_append, List.filter_filter, Listener.isFor]

/-- Removing a callback twice amounts to removing it once. -/
theorem Window.remove_remove (w : Window) (type : WindowEvent) (f : FunctionObject) :
    (w.removeEventListener type f).removeEventListener type f = w.removeEventListener type f := by
  simp [Window.removeEventListener, List.filter_filter]

/-- Removing a callback keeps the registrations of every other function object. -/
theorem Window.mem_removeEventListener (w : Window) (type : WindowEvent) (f : FunctionObject)
    (l : Listener) (hl : l ∈ w.listeners) (hne : l.callback.id ≠ f.id) :
    l ∈ (w.removeEventListener type f).listeners := by
  simp [Window.removeEventListener, Listener.isFor, hl, hne]

/-- A registered listener bound to a presenter instance is a handler of it. -/
theorem Window.hasHandler_of_mem (w : Window) (self : Nat) (l : Listener)
    (hl : l ∈ w.listeners) (hself : l.callback.boundThis = some self) :
    w.hasHandler self l.type = true := by
  simp only [Window.hasHandler, List.any_eq_true]
  exact ⟨l, hl, by simp [hself]⟩

/-- Registering a function object that no listener holds appends it. -/
theorem Window.addEventListener_new (w : Window) (type : WindowEvent) (f : FunctionObject)
    (once : Bool) (h : ∀ l ∈ w.listeners, l.callback.id ≠ f.id) :
    (w.addEventListener type f once).listeners = w.listeners ++ [⟨type, f, once⟩] := by
  have hany : w.listeners.any (fun l => l.isFor type f) = false := by
    simp only [List.any_eq_false, Listener.isFor]
    intro l hl
    simp [h l hl]
  simp [Window.addEventListener, hany]

/-- Removing a function object that no listener holds changes nothing. -/
theorem Window.removeEventListener_new (w : Window) (type : WindowEvent) (f : FunctionObject)
    (h : ∀ l ∈ w.listeners, l.callback.id ≠ f.id) :
    (w.removeEventListener type f).listeners = w.listeners := by
  simp only [Window.removeEventListener, List.filter_eq_self, Listener.isFor]
  intro l hl
  simp [h l hl]

/-! ## Cleanup and the window listeners -/

namespace OfflinePagePresenter
variable {σ : Type}

/-- Repeated `_cleanup()` of the offline-list presenter: no error, and the
window is the one before with the presenter's registration removed. -/
theorem offline_times_cleanup (p : Presenter) (n : Nat) (w : World σ) :
    ((Eff.times (cleanup p : Eff Call σ Unit) (n + 1)).run w).world
      = { w with window := w.window.removeEventListener .hashchange p.boundCleanup }
    ∧ ((Eff.times (cleanup p : Eff Call σ Unit) (n + 1)).run w).result = .ok () := by
  induction n generalizing w with
  | zero => simp [Eff.times, cleanup]
  | succ k ih =>
    have h := ih { w with window := w.window.removeEventListener .hashchange p.boundCleanup }
    rw [Eff.times]
    simp only [Eff.run_andThen, cleanup, Eff.run_bind, Eff.run_call, Eff.run_removeEventListener,
      List.singleton_append] at h ⊢
    simp only [h.1, h.2, Window.remove_remove]
    simp

/-- The offline-list presenter unregisters itself: after attaching, one or more
`_cleanup()` calls throw nothing and leave the window as it was, without any
registration of `#boundCleanup`. -/
theorem offline_attach_then_cleanup (p : Presenter) (n : Nat) (w : World σ) :
    ((attachCleanupListener p >>= fun _ =>
        Eff.times (cleanup p : Eff Call σ Unit) (n + 1)).run w).world.window
      = w.window.removeEventListener .hashchange p.boundCleanup
    ∧ ((attachCleanupListener p >>= fun _ =>
        Eff.times (cleanup p : Eff Call σ Unit) (n + 1)).run w).thrown = none := by
  have h := offline_times_cleanup p n ⟨w.model,
    (w.window.removeEventListener .hashchange p.boundCleanup).addEventListener
      .hashchange p.boundCleanup true⟩
  simp only [Eff.run_bind, attachCleanupListener, Eff.run_removeEventListener,
    Eff.run_addEventListener, List.nil_append, h.1, h.2, Outcome.thrown,
    Window.remove_add_remove]
  simp

end OfflinePagePresenter

namespace DetailStoryPresenter
variable {σ : Type}

/-- One `_cleanup()` of the detail presenter: no error, whatever the map's
`remove()` does, and the presenter's registration is removed. -/
theorem detail_cleanup_run (p : Presenter) (v : View) (u : MapUtils) (w : World σ) :
    ((cleanup p v u : Eff Call σ Unit).run w).world
      = { w with window := w.window.removeEventListener .hashchange p.boundCleanup }
    ∧ ((cleanup p v u : Eff Call σ Unit).run w).result = .ok () := by
  rcases hr : u.remove with e | _ <;>
    by_cases h1 : v.mapInstance = some true <;>
    by_cases h2 : u.mapInstance = some (some "detail-story-map") <;>
    simp [cleanup, h1, h2, hr]

/-- Repeated `_cleanup()` of the detail presenter. -/
theorem detail_times_cleanup (p : Presenter) (v : View) (u : MapUtils) (n : Nat)
    (w : World σ) :
    ((Eff.times (cleanup p v u : Eff Call σ Unit) (n + 1)).run w).world
      = { w with window := w.window.removeEventListener .hashchange p.boundCleanup }
    ∧ ((Eff.times (cleanup p v u : Eff Call σ Unit) (n + 1)).run w).result = .ok () := by
  induction n generalizing w with
  | zero =>
    have h := detail_cleanup_run p v u w
    rw [Eff.times, Eff.run_andThen]
    rcases hc : (cleanup p v u : Eff Call σ Unit).run w with ⟨t, w1, r⟩
    rw [hc] at h
    simp only at h
    obtain ⟨h1, h2⟩ := h
    subst h1 h2
    simp [Eff.times]
  | succ k ih =>
    have h := detail_cleanup_run p v u w
    have h' := ih { w with window := w.window.removeEventListener .hashchange p.boundCleanup }
    rw [Eff.times, Eff.run_andThen]
    rcases hc : (cleanup p v u : Eff Call σ Unit).run w with ⟨t, w1, r⟩
    rw [hc] at h
    simp only at h
    obtain ⟨h1, h2⟩ := h
    subst h1 h2
    simp only [h'.1, h'.2, Window.remove_remove]
    simp

/-- The detail presenter unregisters itself: after attaching, one or more
`_cleanup()` calls throw nothing and leave the window as it was, without any
registration of `_boundCleanup`. -/
theorem detail_attach_then_cleanup (p : Presenter) (v : View) (u : MapUtils) (n : Nat)
    (w : World σ) :
    ((attachCleanupListener p >>= fun _ =>
        Eff.times (cleanup p v u : Eff Call σ Unit) (n + 1)).run w).world.window
      = w.window.removeEventListener .hashchange p.boundCleanup
    ∧ ((attachCleanupListener p >>= fun _ =>
        Eff.times (cleanup p v u : Eff Call σ Unit) (n + 1)).run w).thrown = none := by
  have h := detail_times_cleanup p v u n ⟨w.model,
    (w.window.removeEventListener .hashchange p.boundCleanup).addEventListener
      .hashchange p.boundCleanup true⟩
  simp only [Eff.run_bind, attachCleanupListener, Eff.run_removeEventListener,
    Eff.run_addEventListener, List.nil_append, h.1, h.2, Outcome.thrown,
    Window.remove_add_remove]
  simp

end DetailStoryPresenter

namespace HomePresenter
variable {σ : Type}

/-- Repeated `cleanup()` of the feed presenter keeps every listener whose
callback is not the very object `this.cleanup`. -/
theorem home_times_cleanup_keeps (m : Model σ) (p : Presenter) (l : Listener)
    (hne : l.callback.id ≠ p.cleanupMethod.id) (n : Nat) (w : World σ)
    (hl : l ∈ w.window.listeners) :
    l ∈ ((Eff.times (cleanup m p) n).run w).world.window.listeners := by
  induction n generalizing w with
  | zero => simpa [Eff.times] using hl
  | succ k ih =>
    have h := ih ⟨m.resetState w.model, (w.window.removeEventListener .beforeunload
      p.cleanupMethod).removeEventListener .hashchange p.cleanupMethod⟩
      (Window.mem_removeEventListener _ _ _ _
        (Window.mem_removeEventListener _ _ _ _ hl hne) hne)
    rw [Eff.times]
    simpa [cleanup] using h

/-- The listeners `#attachEventListeners()` registers in a well-formed window. -/
theorem home_attachEventListeners_listeners (p : Presenter) (w : World σ)
    (hw : w.window.WellFormed) :
    ((attachEventListeners p : Eff Call σ Unit).run w).world.window.listeners
      = ((w.window.removeEventListener .hashchange p.cleanupMethod).removeEventListener
          .beforeunload p.cleanupMethod).listeners
        ++ [⟨.hashchange, ⟨w.window.nextId, some p.self⟩, true⟩,
            ⟨.beforeunload, ⟨w.window.nextId + 1, some p.self⟩, false⟩] := by
  simp only [attachEventListeners, Eff.run_bind, Eff.run_call, Eff.run_removeEventListener,
    Eff.run_addEventListener, Eff.run_bindThis, Window.bind_fst, Window.nextId_bind,
    Window.nextId_addEventListener, Window.nextId_removeEventListener]
  have hL2 : ∀ l ∈ ((w.window.removeEventListener .hashchange
      p.cleanupMethod).removeEventListener .beforeunload p.cleanupMethod).listeners,
      l.callback.id < w.window.nextId := by
    intro l hl
    simp only [Window.removeEventListener, List.mem_filter] at hl
    exact hw l hl.1.1
  rw [Window.addEventListener_new, Window.listeners_bind, Window.addEventListener_new,
    Window.listeners_bind, List.append_assoc]
  · rfl
  · intro l hl
    exact Nat.ne_of_lt (hL2 l hl)
  · intro l hl
    rw [Window.listeners_bind, Window.addEventListener_new, Window.listeners_bind] at hl
    · rcases List.mem_append.mp hl with hl | hl
      · exact Nat.ne_of_lt (Nat.lt_succ_of_lt (hL2 l hl))
      · rw [List.mem_singleton] at hl
        subst hl
        exact Nat.ne_of_lt (Nat.lt_succ_self _)
    · intro l hl
      exact Nat.ne_of_lt (hL2 l hl)

/-- The feed presenter does not unregister itself: in a well-formed window, after
`#attachEventListeners()` and any number of `cleanup()` calls, both of its
bound handlers are still registered. -/
theorem home_attach_then_cleanup_keeps_handlers (m : Model σ) (p : Presenter) (n : Nat)
    (w : World σ) (hw : w.window.WellFormed) (hp : p.cleanupMethod.id < w.window.nextId) :
    ((attachEventListeners p >>= fun _ => Eff.times (cleanup m p) n).run
        w).world.window.hasHandler p.self .hashchange = true
    ∧ ((attachEventListeners p >>= fun _ => Eff.times (cleanup m p) n).run
        w).world.window.hasHandler p.self .beforeunload = true := by
  have hrun : ((attachEventListeners p >>= fun _ => Eff.times (cleanup m p) n).run w).world
      = ((Eff.times (cleanup m p) n).run
          ((attachEventListeners p : Eff Call σ Unit).run w).world).world := by
    simp [attachEventListeners]
  have hL := home_attachEventListeners_listeners p w hw
  rw [hrun]
  constructor
  · refine Window.hasHandler_of_mem _ p.self
      ⟨.hashchange, ⟨w.window.nextId, some p.self⟩, true⟩ ?_ rfl
    refine home_times_cleanup_keeps m p _ (Nat.ne_of_gt hp) n _ ?_
    rw [hL]
    simp
  · refine Window.hasHandler_of_mem _ p.self
      ⟨.beforeunload, ⟨w.window.nextId + 1, some p.self⟩, false⟩ ?_ rfl
    refine home_times_cleanup_keeps m p _ (Nat.ne_of_gt (Nat.lt_succ_of_lt hp)) n _ ?_
    rw [hL]
    simp

end HomePresenter

namespace AddStoryPagePresenter
variable {σ : Type}

/-- One `cleanup()` of the composer presenter removes nothing from a well-formed
window: it looks for two function objects it has just made. -/
theorem composer_cleanup_listeners (self : Nat) (w : World σ) (hw : w.window.WellFormed) :
    ((cleanup self : Eff Call σ Unit).run w).world.window.listeners = w.window.listeners
    ∧ ((cleanup self : Eff Call σ Unit).run w).world.window.WellFormed := by
  have h1 : ((w.window.bind self).2.removeEventListener .beforeunload
      ⟨w.window.nextId, some self⟩).listeners = w.window.listeners := by
    rw [Window.removeEventListener_new, Window.listeners_bind]
    intro l hl
    exact Nat.ne_of_lt (hw l hl)
  have h2 : ((((w.window.bind self).2.removeEventListener .beforeunload
      ⟨w.window.nextId, some self⟩).bind self).2.removeEventListener .hashchange
      ⟨w.window.nextId + 1, some self⟩).listeners = w.window.listeners := by
    rw [Window.removeEventListener_new, Window.listeners_bind, h1]
    intro l hl
    rw [Window.listeners_bind, h1] at hl
    exact Nat.ne_of_lt (Nat.lt_succ_of_lt (hw l hl))
  simp only [cleanup, Eff.run_bind, Eff.run_call, Eff.run_removeEventListener,
    Eff.run_bindThis, Window.bind_fst, Window.nextId_bind, Window.nextId_removeEventListener]
  refine ⟨h2, ?_⟩
  intro l hl
  rw [h2] at hl
  simp only [Window.nextId_removeEventListener, Window.nextId_bind]
  exact Nat.lt_succ_of_lt (Nat.lt_succ_of_lt (hw l hl))

/-- Any number of `cleanup()` calls of the composer presenter leave the
listeners of a well-formed window as they are. -/
theorem composer_times_cleanup_listeners (self : Nat) (n : Nat) (w : World σ)
    (hw : w.window.WellFormed) :
    ((Eff.times (cleanup self : Eff Call σ Unit) n).run w).world.window.listeners
      = w.window.listeners := by
  induction n generalizing w with
  | zero => simp [Eff.times]
  | succ k ih =>
    have h := composer_cleanup_listeners self w hw
    have hres : ((cleanup self : Eff Call σ Unit).run w).result = .ok () := by
      simp [cleanup]
    rw [Eff.times, Eff.run_andThen]
    rcases hc : (cleanup self : Eff Call σ Unit).run w with ⟨t, w1, r⟩
    rw [hc] at h hres
    simp only at h hres
    subst hres
    simp only
    rw [ih w1 h.2, h.1]

end AddStoryPagePresenter

/-! ## The claims -/

/-- Claim C1, evaluated where the code departs from it.  Feed presenter 1 on a
window without listeners: after `#attachEventListeners()` and one `cleanup()`
both bound handlers are still registered; after three `cleanup()` calls the
`hashchange` and `beforeunload` handlers are still there; attaching twice and
cleaning up leaves two `beforeunload` handlers.  Composer presenter 1: after
`setupEventListeners()` and `cleanup()` both handlers are still registered. -/
theorem cleanup_leaves_bound_handlers_registered :
    ((HomePresenter.attachEventListeners HomePresenter.examplePresenter >>= fun _ =>
        HomePresenter.cleanup HomePresenter.exampleModel HomePresenter.examplePresenter).run
          ⟨([], []), exampleWindow⟩).world.window.listeners
      = [⟨.hashchange, ⟨4, some 1⟩, true⟩, ⟨.beforeunload, ⟨5, some 1⟩, false⟩]
    ∧ ((HomePresenter.attachEventListeners HomePresenter.examplePresenter >>= fun _ =>
        Eff.times (HomePresenter.cleanup HomePresenter.exampleModel
          HomePresenter.examplePresenter) 3).run
          ⟨([], []), exampleWindow⟩).world.window.hasHandler 1 .hashchange = true
    ∧ ((HomePresenter.attachEventListeners HomePresenter.examplePresenter >>= fun _ =>
        Eff.times (HomePresenter.cleanup HomePresenter.exampleModel
          HomePresenter.examplePresenter) 3).run
          ⟨([], []), exampleWindow⟩).world.window.hasHandler 1 .beforeunload = true
    ∧ ((HomePresenter.attachEventListeners HomePresenter.examplePresenter >>= fun _ =>
        HomePresenter.attachEventListeners HomePresenter.examplePresenter >>= fun _ =>
        HomePresenter.cleanup HomePresenter.exampleModel HomePresenter.examplePresenter).run
          ⟨([], []), exampleWindow⟩).world.window.countHandlers 1 .beforeunload = 2
    ∧ ((AddStoryPagePresenter.setupEventListeners 1 AddStoryPagePresenter.exampleView >>= fun _ =>
        AddStoryPagePresenter.cleanup 1).run
          (⟨none, exampleWindow⟩ : World (Option AddStoryPagePresenter.File))).world.window.listeners
      = [⟨.beforeunload, ⟨4, some 1⟩, false⟩, ⟨.hashchange, ⟨5, some 1⟩, false⟩] := by
  decide

namespace AddStoryPagePresenter
variable {σ : Type}

/-- Claim C2.  For a file picked in the file input (the input element being
present), `handleFileInputChange` shows an element error exactly when the file
is larger than 1048576 bytes or its MIME type does not start with "image/";
in that case the input's value is cleared, `model.setPhotoFile` is not called
and the model ends as `clearPhotoFile` leaves it; otherwise
`model.setPhotoFile` is called with that file. -/
theorem handleFileInputChange_rejects_exactly (m : Model σ) (v : View) (w : World σ)
    (file : File) (rest : List File) (hInput : v.photoFileInput = true) :
    ((∃ message, Call.showElementError message ∈
          ((handleFileInputChange m v (some (file :: rest))).run w).trace)
        ↔ (file.size > 1048576 ∨ jsStartsWith file.type "image/" = false))
    ∧ ((file.size > 1048576 ∨ jsStartsWith file.type "image/" = false) →
        Call.clearFileInputValue ∈ ((handleFileInputChange m v (some (file :: rest))).run w).trace
        ∧ (∀ f, Call.setPhotoFile f ∉
            ((handleFileInputChange m v (some (file :: rest))).run w).trace)
        ∧ ((handleFileInputChange m v (some (file :: rest))).run w).world.model
            = m.clearPhotoFile w.model)
    ∧ (¬ (file.size > 1048576 ∨ jsStartsWith file.type "image/" = false) →
        Call.setPhotoFile file ∈ ((handleFileInputChange m v (some (file :: rest))).run w).trace
        ∧ Call.clearFileInputValue ∉
            ((handleFileInputChange m v (some (file :: rest))).run w).trace
        ∧ ((handleFileInputChange m v (some (file :: rest))).run w).world.model
            = m.setPhotoFile file w.model) := by
  by_cases h1 : file.size > 1048576
  · simp [handleFileInputChange, clearFileInput, hInput, h1]
  · cases h2 : jsStartsWith file.type "image/" <;>
      simp [handleFileInputChange, clearFileInput, hInput, h1, h2]

/-- Claim C2 at a PNG of 1048577 bytes: the input is cleared and the photo setter
is not called. -/
theorem handleFileInputChange_rejects_exactly_witness :
    exampleView.photoFileInput = true
    ∧ Call.clearFileInputValue ∈
        ((handleFileInputChange exampleModel exampleView
          (some [⟨"besar.png", 1048577, "image/png"⟩])).run ⟨none, exampleWindow⟩).trace
    ∧ (∀ f, Call.setPhotoFile f ∉
        ((handleFileInputChange exampleModel exampleView
          (some [⟨"besar.png", 1048577, "image/png"⟩])).run ⟨none, exampleWindow⟩).trace)
    ∧ ((handleFileInputChange exampleModel exampleView
          (some [⟨"besar.png", 1048577, "image/png"⟩])).run ⟨none, exampleWindow⟩).world.model
        = exampleModel.clearPhotoFile none :=
  ⟨rfl, (handleFileInputChange_rejects_exactly exampleModel exampleView ⟨none, exampleWindow⟩
    ⟨"besar.png", 1048577, "image/png"⟩ [] rfl).2.1 (Or.inl (by decide))⟩

/-- Claim C3.  While `view.isSubmitting` is true, `handleFormSubmit` only calls
`event.preventDefault()`: it does not validate, does not change the submitting
state, does not call `model.submitStory` and leaves the world as it is.
Whenever `validateForm` or `validatePhoto` returns false, `model.submitStory`
is not called either. -/
theorem handleFormSubmit_guards (m : Model σ) (self : Nat) (v : View) (w : World σ) :
    (v.isSubmitting = true →
        ((handleFormSubmit m self v).run w).trace = [Call.preventDefault]
        ∧ ((handleFormSubmit m self v).run w).world = w
        ∧ (∀ d, Call.submitStory d ∉ ((handleFormSubmit m self v).run w).trace)
        ∧ Call.validateForm ∉ ((handleFormSubmit m self v).run w).trace
        ∧ (∀ b, Call.validatePhoto b ∉ ((handleFormSubmit m self v).run w).trace)
        ∧ (∀ b, Call.setFormSubmittingState b ∉ ((handleFormSubmit m self v).run w).trace))
    ∧ ((v.validateForm = false ∨ v.validatePhoto (m.hasPhoto w.model) = false) →
        ∀ d, Call.submitStory d ∉ ((handleFormSubmit m self v).run w).trace) := by
  constructor
  · intro h
    simp [handleFormSubmit, h]
  · intro h
    cases hs : v.isSubmitting
    · rcases hform : v.form with _ | _ | _ <;> cases he : v.formErrorMessageElement <;>
        simp [handleFormSubmit, hs, h, hform, he]
    · simp [handleFormSubmit, hs]

/-- Claim C3 at a view that is submitting, and at one whose photo check fails:
`model.submitStory` is not called. -/
theorem handleFormSubmit_guards_witness :
    ((handleFormSubmit exampleModel 1 { exampleView with isSubmitting := true }).run
        ⟨some ⟨"a.png", 10, "image/png"⟩, exampleWindow⟩).trace = [Call.preventDefault]
    ∧ (∀ d, Call.submitStory d ∉
        ((handleFormSubmit exampleModel 1 exampleView).run ⟨none, exampleWindow⟩).trace) :=
  ⟨((handleFormSubmit_guards exampleModel 1 { exampleView with isSubmitting := true }
      ⟨some ⟨"a.png", 10, "image/png"⟩, exampleWindow⟩).1 rfl).1,
    (handleFormSubmit_guards exampleModel 1 exampleView ⟨none, exampleWindow⟩).2 (Or.inr rfl)⟩

end AddStoryPagePresenter

namespace HomePresenter
variable {σ : Type}

/-- Claim C4.  When `model.fetchInitialStories` resolves with no story, whatever
`allLoaded` is, `#loadInitialStories` calls `view.showNoStoriesMessage`, never
calls `view.showLoadMoreButton` (with `true` or `false`), renders no item,
populates no marker and throws nothing. -/
theorem loadInitialStories_empty (m : Model σ) (w : World σ) (allLoaded : Bool) (s1 : σ)
    (h : m.fetchInitialStories w.model = (.ok ⟨[], allLoaded⟩, s1)) :
    ((loadInitialStories m).run w).trace
      = [Call.fetchInitialStories, Call.removeSkeletonLoaders, Call.showNoStoriesMessage]
    ∧ Call.showNoStoriesMessage ∈ ((loadInitialStories m).run w).trace
    ∧ (∀ visible, Call.showLoadMoreButton visible ∉ ((loadInitialStories m).run w).trace)
    ∧ (∀ stories append,
        Call.renderStoryItems stories append ∉ ((loadInitialStories m).run w).trace)
    ∧ (∀ stories, Call.populateMapMarkers stories ∉ ((loadInitialStories m).run w).trace)
    ∧ ((loadInitialStories m).run w).thrown = none := by
  simp [loadInitialStories, h, Outcome.thrown]

/-- Claim C4 at the sample model with nothing to serve. -/
theorem loadInitialStories_empty_witness :
    exampleModel.fetchInitialStories ([], []) = (.ok ⟨[], true⟩, ([], []))
    ∧ ((loadInitialStories exampleModel).run ⟨([], []), exampleWindow⟩).trace
      = [Call.fetchInitialStories, Call.removeSkeletonLoaders, Call.showNoStoriesMessage] :=
  ⟨rfl, (loadInitialStories_empty exampleModel ⟨([], []), exampleWindow⟩ true ([], []) rfl).1⟩

/-- Claim C5.  When `model.fetchInitialStories` resolves with at least one story,
and whenever `model.fetchMoreStories` resolves (with or without stories), the
last argument passed to `view.showLoadMoreButton` is the negation of the
`allLoaded` flag that was returned. -/
theorem showLoadMoreButton_follows_allLoaded (m : Model σ) (w : World σ) :
    (∀ r s1, m.fetchInitialStories w.model = (.ok r, s1) → r.stories ≠ [] →
        (loadMoreButtonCalls ((loadInitialStories m).run w).trace).getLast?
          = some (!r.allLoaded))
    ∧ (∀ r s1, m.fetchMoreStories w.model = (.ok r, s1) →
        (loadMoreButtonCalls ((loadMoreStories m).run w).trace).getLast?
          = some (!r.allLoaded)) := by
  constructor
  · intro r s1 h hne
    simp [loadInitialStories, h, hne, loadMoreButtonCalls, updateMapMarkers, isMapInitialized]
  · intro r s1 h
    by_cases hne : r.stories = []
    · simp [loadMoreStories, h, hne, loadMoreButtonCalls]
    · have hpos : 0 < r.stories.length := List.length_pos.mpr hne
      simp [loadMoreStories, h, hpos, loadMoreButtonCalls, updateMapMarkers, isMapInitialized]

/-- Claim C5 at the sample model with three stories to serve: the button is
shown after the first page (`allLoaded = false`) and hidden after the second
(`allLoaded = true`). -/
theorem showLoadMoreButton_follows_allLoaded_witness :
    (loadMoreButtonCalls ((loadInitialStories exampleModel).run
        ⟨([exampleStory "1" "a", exampleStory "2" "b", exampleStory "3" "c"], []),
          exampleWindow⟩).trace).getLast? = some true
    ∧ (loadMoreButtonCalls ((loadMoreStories exampleModel).run
        ⟨([exampleStory "3" "c"], [exampleStory "1" "a", exampleStory "2" "b"]),
          exampleWindow⟩).trace).getLast? = some false :=
  ⟨(showLoadMoreButton_follows_allLoaded exampleModel
      ⟨([exampleStory "1" "a", exampleStory "2" "b", exampleStory "3" "c"], []),
        exampleWindow⟩).1 ⟨[exampleStory "1" "a", exampleStory "2" "b"], false⟩ _ rfl
      (by simp),
    (showLoadMoreButton_follows_allLoaded exampleModel
      ⟨([exampleStory "3" "c"], [exampleStory "1" "a", exampleStory "2" "b"]),
        exampleWindow⟩).2 ⟨[exampleStory "3" "c"], true⟩ _ rfl⟩

end HomePresenter

namespace AddStoryPagePresenter
variable {σ : Type}

/-- Claim C6.  For every pair of coordinates, `geolocationSuccess` calls
`model.setLocation` with exactly `{ lat: latitude, lon: longitude }` (and the
model moves accordingly), calls `view.updateMapMarker` with the same latitude
and longitude, and these are its only calls besides the coordinates text, the
feedback "Lokasi ditemukan!", the button state and the timer. -/
theorem geolocationSuccess_passes_coordinates (m : Model σ) (w : World σ)
    (latitude longitude : JSValue) :
    ((geolocationSuccess m ⟨latitude, longitude⟩).run w).trace =
      [Call.setLocation ⟨latitude, longitude⟩,
        Call.updateSelectedCoordsText ⟨latitude, longitude⟩,
        Call.updateLocationFeedback "Lokasi ditemukan!", Call.setGetLocationButtonState false,
        Call.updateMapMarker latitude longitude, Call.setTimeout 2500]
    ∧ ((geolocationSuccess m ⟨latitude, longitude⟩).run w).world.model =
        m.setLocation ⟨latitude, longitude⟩ w.model
    ∧ ((geolocationSuccess m ⟨latitude, longitude⟩).run w).thrown = none := by
  simp [geolocationSuccess, Outcome.thrown]

/-- Claim C6 at the coordinates (-6.2, 106.8). -/
theorem geolocationSuccess_passes_coordinates_witness :
    ((geolocationSuccess exampleModel ⟨.number (-31 / 5), .number (534 / 5)⟩).run
        ⟨none, exampleWindow⟩).trace =
      [Call.setLocation ⟨.number (-31 / 5), .number (534 / 5)⟩,
        Call.updateSelectedCoordsText ⟨.number (-31 / 5), .number (534 / 5)⟩,
        Call.updateLocationFeedback "Lokasi ditemukan!", Call.setGetLocationButtonState false,
        Call.updateMapMarker (.number (-31 / 5)) (.number (534 / 5)), Call.setTimeout 2500] :=
  (geolocationSuccess_passes_coordinates exampleModel ⟨none, exampleWindow⟩
    (.number (-31 / 5)) (.number (534 / 5))).1

/-- Claim C7 as stated fails.  For the browser's error with code
`PERMISSION_DENIED`, the message passed to `view.updateLocationFeedback` is
"Error: Anda menolak izin akses lokasi.", not the permission-denied string
"Anda menolak izin akses lokasi." itself; for a code that is none of the three
constants (99), it is "Error: Tidak dapat mengambil lokasi Anda.", not the
generic fallback "Tidak dapat mengambil lokasi Anda." itself. -/
theorem geolocationError_feedback_counterexample :
    (exampleError 1).code = (exampleError 1).PERMISSION_DENIED
    ∧ locationFeedbackCalls
        ((geolocationError (exampleError 1)).run (⟨(), exampleWindow⟩ : World Unit)).trace
      = ["Error: Anda menolak izin akses lokasi."]
    ∧ locationFeedbackCalls
        ((geolocationError (exampleError 1)).run (⟨(), exampleWindow⟩ : World Unit)).trace
      ≠ ["Anda menolak izin akses lokasi."]
    ∧ locationFeedbackCalls
        ((geolocationError (exampleError 99)).run (⟨(), exampleWindow⟩ : World Unit)).trace
      = ["Error: Tidak dapat mengambil lokasi Anda."]
    ∧ locationFeedbackCalls
        ((geolocationError (exampleError 99)).run (⟨(), exampleWindow⟩ : World Unit)).trace
      ≠ ["Tidak dapat mengambil lokasi Anda."] := by
  decide

/-- Claim C7 as amended.  For every geolocation error whose three code constants
differ from one another, the one message passed to
`view.updateLocationFeedback` is "Error: " followed by the string selected by
the error code: the permission-denied string for `PERMISSION_DENIED`, the
position-unavailable string for `POSITION_UNAVAILABLE`, the timeout string for
`TIMEOUT`, and the generic fallback "Tidak dapat mengambil lokasi Anda." for
every other code; for `PERMISSION_DENIED` it is not the one built from the
generic fallback. -/
theorem geolocationError_feedback (error : GeolocationPositionError) (w : World σ)
    (hDistinct : error.PERMISSION_DENIED ≠ error.POSITION_UNAVAILABLE
      ∧ error.PERMISSION_DENIED ≠ error.TIMEOUT
      ∧ error.POSITION_UNAVAILABLE ≠ error.TIMEOUT) :
    (error.code = error.PERMISSION_DENIED →
        locationFeedbackCalls ((geolocationError error).run w).trace
          = ["Error: " ++ "Anda menolak izin akses lokasi."])
    ∧ (error.code = error.POSITION_UNAVAILABLE →
        locationFeedbackCalls ((geolocationError error).run w).trace
          = ["Error: " ++ "Informasi lokasi tidak tersedia."])
    ∧ (error.code = error.TIMEOUT →
        locationFeedbackCalls ((geolocationError error).run w).trace
          = ["Error: " ++ "Waktu habis saat mencoba mengambil lokasi."])
    ∧ (error.code ≠ error.PERMISSION_DENIED → error.code ≠ error.POSITION_UNAVAILABLE →
        error.code ≠ error.TIMEOUT →
        locationFeedbackCalls ((geolocationError error).run w).trace
          = ["Error: " ++ "Tidak dapat mengambil lokasi Anda."])
    ∧ (error.code = error.PERMISSION_DENIED →
        locationFeedbackCalls ((geolocationError error).run w).trace
          ≠ ["Error: " ++ "Tidak dapat mengambil lokasi Anda."]) := by
  obtain ⟨h12, h13, h23⟩ := hDistinct
  have hrun : locationFeedbackCalls ((geolocationError error).run w).trace
      = ["Error: " ++ geolocationErrorMessage error] := by
    simp [geolocationError, locationFeedbackCalls]
  rw [hrun]
  refine ⟨?_, ?_, ?_, ?_, ?_⟩
  · intro h
    simp [geolocationErrorMessage, h]
  · intro h
    simp [geolocationErrorMessage, h, Ne.symm h12]
  · intro h
    simp [geolocationErrorMessage, h, Ne.symm h13, Ne.symm h23]
  · intro h1 h2 h3
    simp [geolocationErrorMessage, h1, h2, h3]
  · intro h
    simp [geolocationErrorMessage, h]

/-- Claim C7 as amended, at the browser's error object with code 3 (`TIMEOUT`). -/
theorem geolocationError_feedback_witness :
    ((exampleError 3).PERMISSION_DENIED ≠ (exampleError 3).POSITION_UNAVAILABLE
      ∧ (exampleError 3).PERMISSION_DENIED ≠ (exampleError 3).TIMEOUT
      ∧ (exampleError 3).POSITION_UNAVAILABLE ≠ (exampleError 3).TIMEOUT)
    ∧ locationFeedbackCalls
        ((geolocationError (exampleError 3)).run (⟨(), exampleWindow⟩ : World Unit)).trace
      = ["Error: " ++ "Waktu habis saat mencoba mengambil lokasi."] :=
  ⟨by decide, (geolocationError_feedback (exampleError 3) ⟨(), exampleWindow⟩
    (by decide)).2.2.1 rfl⟩

end AddStoryPagePresenter

namespace OfflinePagePresenter
variable {σ : Type}

/-- Claim C8.  When the user declines the confirmation, or the clicked control
carries no story id (no `data-id`, or an empty one), `#handleDeleteClick` never
calls `model.deleteStory` or `view.removeStoryElement`, shows no loading
indicator, renders nothing again, leaves the world as it is and throws
nothing. -/
theorem handleDeleteClick_declined (m : Model σ) (w : World σ) (datasetId : Option String)
    (confirmed : Bool)
    (h : confirmed = false ∨ datasetId = none ∨ datasetId = some "") :
    (∀ storyId, Call.deleteStory storyId ∉ ((handleDeleteClick m datasetId confirmed).run w).trace)
    ∧ (∀ storyId, Call.removeStoryElement storyId ∉
        ((handleDeleteClick m datasetId confirmed).run w).trace)
    ∧ Call.showDeleteLoading ∉ ((handleDeleteClick m datasetId confirmed).run w).trace
    ∧ (∀ loading, Call.setLoadingState loading ∉
        ((handleDeleteClick m datasetId confirmed).run w).trace)
    ∧ (∀ stories, Call.renderStories stories ∉
        ((handleDeleteClick m datasetId confirmed).run w).trace)
    ∧ ((handleDeleteClick m datasetId confirmed).run w).world = w
    ∧ ((handleDeleteClick m datasetId confirmed).run w).thrown = none := by
  rcases datasetId with _ | storyId
  · simp [handleDeleteClick, Outcome.thrown]
  · by_cases hid : storyId = ""
    · simp [handleDeleteClick, Outcome.thrown, hid]
    · have hc : confirmed = false := by
        rcases h with h | h | h
        · exact h
        · cases h
        · exact absurd (Option.some.inj h) hid
      simp [handleDeleteClick, Outcome.thrown, hid, hc]

/-- Claim C8 at a saved story "story-1" whose deletion the user declines: the
model still holds it. -/
theorem handleDeleteClick_declined_witness :
    (false = false ∨ some "story-1" = (none : Option String) ∨ some "story-1" = some "")
    ∧ (∀ storyId, Call.deleteStory storyId ∉
        ((handleDeleteClick exampleModel (some "story-1") false).run
          ⟨[exampleStory "story-1" "Pantai"], exampleWindow⟩).trace)
    ∧ ((handleDeleteClick exampleModel (some "story-1") false).run
          ⟨[exampleStory "story-1" "Pantai"], exampleWindow⟩).world.model
        = [exampleStory "story-1" "Pantai"] :=
  ⟨Or.inl rfl,
    (handleDeleteClick_declined exampleModel ⟨[exampleStory "story-1" "Pantai"], exampleWindow⟩
      (some "story-1") false (Or.inl rfl)).1,
    by rw [(handleDeleteClick_declined exampleModel
      ⟨[exampleStory "story-1" "Pantai"], exampleWindow⟩
      (some "story-1") false (Or.inl rfl)).2.2.2.2.2.1]⟩

end OfflinePagePresenter

namespace DetailStoryPresenter
variable {σ : Type}

/-- Claim C9.  For `init` with a missing identifier (`undefined`, `null` or the
empty string), the presenter calls `view.hideLoading` and `view.showError` with
the ID-not-found message and title, and nothing else: `model.fetchStory` is not
called, no click listener is set up, no map is made, and the world (the model
and the window's listeners) is left as it is. -/
theorem init_without_identifier (m : Model σ) (p : Presenter) (v : View) (u : MapUtils)
    (w : World σ) (storyId : JSValue)
    (h : storyId = .undefined ∨ storyId = .null ∨ storyId = .string "") :
    ((init m p v u storyId).run w).trace =
      [Call.hideLoading,
        Call.showError "Tidak dapat memuat cerita: ID tidak ditemukan di URL."
          (some "Error - ID Tidak Ditemukan")]
    ∧ (∀ id, Call.fetchStory id ∉ ((init m p v u storyId).run w).trace)
    ∧ (∀ f, Call.setupImageClickListener f ∉ ((init m p v u storyId).run w).trace)
    ∧ (∀ f, Call.setupSaveOfflineButton f ∉ ((init m p v u storyId).run w).trace)
    ∧ (∀ lat lon zoom, Call.initMap lat lon zoom ∉ ((init m p v u storyId).run w).trace)
    ∧ ((init m p v u storyId).run w).world = w
    ∧ ((init m p v u storyId).run w).thrown = none := by
  rcases h with h | h | h <;> subst h <;> simp [init, JSValue.truthy, Outcome.thrown]

/-- Claim C9 at the empty identifier, on a window without listeners: none is
registered. -/
theorem init_without_identifier_witness :
    (JSValue.string "" = .undefined ∨ JSValue.string "" = .null
      ∨ JSValue.string "" = .string "")
    ∧ ((init exampleModel examplePresenter exampleView exampleMapUtils (.string "")).run
        ⟨⟨none, false, true⟩, exampleWindow⟩).trace =
      [Call.hideLoading,
        Call.showError "Tidak dapat memuat cerita: ID tidak ditemukan di URL."
          (some "Error - ID Tidak Ditemukan")]
    ∧ ((init exampleModel examplePresenter exampleView exampleMapUtils (.string "")).run
        ⟨⟨none, false, true⟩, exampleWindow⟩).world.window.listeners = [] :=
  ⟨Or.inr (Or.inr rfl),
    (init_without_identifier exampleModel examplePresenter exampleView exampleMapUtils
      ⟨⟨none, false, true⟩, exampleWindow⟩ (.string "") (Or.inr (Or.inr rfl))).1,
    by rw [(init_without_identifier exampleModel examplePresenter exampleView exampleMapUtils
      ⟨⟨none, false, true⟩, exampleWindow⟩ (.string "") (Or.inr (Or.inr rfl))).2.2.2.2.2.1]
       rfl⟩

/-- Whatever `deleteStoryOffline` or `saveStoryOffline` is rejected with,
`undefined` and `null` included, `_handleSaveOfflineClick` ends with
`view.enableSaveButton()` and `view.updateSaveButtonState`; when the rejection
value is `undefined` or `null`, what the handler throws is the `TypeError` of
reading `error.message`. -/
theorem handleSaveOfflineClick_rejected_with_nullish (m : Model σ) (w : World σ)
    (story : Story) (hStory : m.getStory w.model = some story)
    (hId : story.id.truthy = true)
    (hReject : (if m.isOfflineSaved w.model = true then m.deleteStoryOffline w.model
      else m.saveStoryOffline w.model).1 = .error .nullish) :
    [Call.enableSaveButton, Call.isOfflineSaved,
        Call.updateSaveButtonState
          (m.isOfflineSaved ((handleSaveOfflineClick m).run w).world.model)]
        <:+ ((handleSaveOfflineClick m).run w).trace
    ∧ (∀ message, Call.showErrorMessage message ∉ ((handleSaveOfflineClick m).run w).trace)
    ∧ ((handleSaveOfflineClick m).run w).thrown = some typeError := by
  cases hSaved : m.isOfflineSaved w.model
  · rcases hOp : m.saveStoryOffline w.model with ⟨(_ | _) | _, s1⟩ <;>
      simp [hSaved, hOp] at hReject
    cases hAfter : m.isOfflineSaved s1 <;>
      simp [handleSaveOfflineClick, hStory, hId, hSaved, hOp, hAfter, Outcome.thrown,
        List.suffix_cons_iff]
  · rcases hOp : m.deleteStoryOffline w.model with ⟨(_ | _) | _, s1⟩ <;>
      simp [hSaved, hOp] at hReject
    cases hAfter : m.isOfflineSaved s1 <;>
      simp [handleSaveOfflineClick, hStory, hId, hSaved, hOp, hAfter, Outcome.thrown,
        List.suffix_cons_iff]

/-- Claim C10 as stated fails.  A saved story with an id, and a store that
rejects the deletion with `undefined`: the handler still ends with
`view.enableSaveButton()` and `view.updateSaveButtonState(true)`, but reading
`error.message` in the `catch` clause throws a `TypeError`, which leaves the
handler. -/
theorem handleSaveOfflineClick_nullish_rejection_counterexample :
    nullishRejectionModel.getStory ⟨some (exampleStory "story-1" "Pantai"), true, true⟩
      = some (exampleStory "story-1" "Pantai")
    ∧ (exampleStory "story-1" "Pantai").id.truthy = true
    ∧ ((handleSaveOfflineClick nullishRejectionModel).run
        ⟨⟨some (exampleStory "story-1" "Pantai"), true, true⟩, exampleWindow⟩).trace
      = [Call.getStory, Call.setSaveButtonLoading, Call.isOfflineSaved, Call.deleteStoryOffline,
          Call.isOfflineSaved, Call.enableSaveButton, Call.isOfflineSaved,
          Call.updateSaveButtonState true]
    ∧ ((handleSaveOfflineClick nullishRejectionModel).run
        ⟨⟨some (exampleStory "story-1" "Pantai"), true, true⟩, exampleWindow⟩).thrown
      = some typeError
    ∧ ((handleSaveOfflineClick nullishRejectionModel).run
        ⟨⟨some (exampleStory "story-1" "Pantai"), true, true⟩, exampleWindow⟩).thrown
      ≠ none := by
  decide

/-- Claim C10 as amended.  For every story with an id, `_handleSaveOfflineClick`
performs exactly one model operation, `deleteStoryOffline` if `isOfflineSaved()`
is true and `saveStoryOffline` otherwise; whether that operation resolves or
rejects, and whatever it rejects with, the handler ends with
`view.enableSaveButton()` followed by `view.updateSaveButtonState` with the
model's offline status at that moment; and when the operation resolves, or
rejects with a value other than `undefined` and `null`, the handler throws
nothing. -/
theorem handleSaveOfflineClick_toggles_and_reenables (m : Model σ) (w : World σ)
    (story : Story) (hStory : m.getStory w.model = some story)
    (hId : story.id.truthy = true) :
    ((handleSaveOfflineClick m).run w).trace.countP Call.isModelOperation = 1
    ∧ (m.isOfflineSaved w.model = true →
        Call.deleteStoryOffline ∈ ((handleSaveOfflineClick m).run w).trace
        ∧ Call.saveStoryOffline ∉ ((handleSaveOfflineClick m).run w).trace)
    ∧ (m.isOfflineSaved w.model = false →
        Call.saveStoryOffline ∈ ((handleSaveOfflineClick m).run w).trace
        ∧ Call.deleteStoryOffline ∉ ((handleSaveOfflineClick m).run w).trace)
    ∧ [Call.enableSaveButton, Call.isOfflineSaved,
        Call.updateSaveButtonState
          (m.isOfflineSaved ((handleSaveOfflineClick m).run w).world.model)]
        <:+ ((handleSaveOfflineClick m).run w).trace
    ∧ ((if m.isOfflineSaved w.model = true then m.deleteStoryOffline w.model
          else m.saveStoryOffline w.model).1 ≠ .error .nullish →
        ((handleSaveOfflineClick m).run w).thrown = none) := by
  cases hSaved : m.isOfflineSaved w.model
  · rcases hOp : m.saveStoryOffline w.model with ⟨(_ | _) | _, s1⟩ <;>
      cases hAfter : m.isOfflineSaved s1 <;>
      simp [handleSaveOfflineClick, hStory, hId, hSaved, hOp, hAfter, Outcome.thrown,
        Call.isModelOperation, List.suffix_cons_iff]
  · rcases hOp : m.deleteStoryOffline w.model with ⟨(_ | _) | _, s1⟩ <;>
      cases hAfter : m.isOfflineSaved s1 <;>
      simp [handleSaveOfflineClick, hStory, hId, hSaved, hOp, hAfter, Outcome.thrown,
        Call.isModelOperation, List.suffix_cons_iff]

/-- Claim C10 as amended, at a saved story whose deletion the store rejects with
an error "store is closed": nothing leaves the handler and the button is
enabled again. -/
theorem handleSaveOfflineClick_toggles_and_reenables_witness :
    exampleModel.getStory ⟨some (exampleStory "story-1" "Pantai"), true, false⟩
      = some (exampleStory "story-1" "Pantai")
    ∧ (exampleStory "story-1" "Pantai").id.truthy = true
    ∧ ((handleSaveOfflineClick exampleModel).run
        ⟨⟨some (exampleStory "story-1" "Pantai"), true, false⟩, exampleWindow⟩).thrown = none
    ∧ Call.deleteStoryOffline ∈ ((handleSaveOfflineClick exampleModel).run
        ⟨⟨some (exampleStory "story-1" "Pantai"), true, false⟩, exampleWindow⟩).trace
    ∧ Call.enableSaveButton ∈ ((handleSaveOfflineClick exampleModel).run
        ⟨⟨some (exampleStory "story-1" "Pantai"), true, false⟩, exampleWindow⟩).trace :=
  ⟨rfl, by decide,
    (handleSaveOfflineClick_toggles_and_reenables exampleModel
      ⟨⟨some (exampleStory "story-1" "Pantai"), true, false⟩, exampleWindow⟩
      (exampleStory "story-1" "Pantai") rfl (by decide)).2.2.2.2 (by simp [exampleModel]),
    ((handleSaveOfflineClick_toggles_and_reenables exampleModel
      ⟨⟨some (exampleStory "story-1" "Pantai"), true, false⟩, exampleWindow⟩
      (exampleStory "story-1" "Pantai") rfl (by decide)).2.1 rfl).1,
    ((handleSaveOfflineClick_toggles_and_reenables exampleModel
      ⟨⟨some (exampleStory "story-1" "Pantai"), true, false⟩, exampleWindow⟩
      (exampleStory "story-1" "Pantai") rfl (by decide)).2.2.2.1).mem
      (List.mem_cons_self _ _)⟩

end DetailStoryPresenter

/-! ## The map of the detail page -/

namespace DetailStoryPresenter
variable {σ : Type}

/-- Method `_initStoryMap()` starts by asking the model for the story, never
throws, leaves the world as it is, and touches neither the page title nor the
story details. -/
theorem initStoryMap_run (m : Model σ) (v : View) (u : MapUtils) (w : World σ) :
    ((initStoryMap m v u).run w).world = w
    ∧ ((initStoryMap m v u).run w).result = .ok ()
    ∧ Call.getStory ∈ ((initStoryMap m v u).run w).trace
    ∧ pageTitleFlags ((initStoryMap m v u).run w).trace = []
    ∧ renderFlags ((initStoryMap m v u).run w).trace = [] := by
  rcases hs : m.getStory w.model with _ | story
  · simp [initStoryMap, hs, pageTitleFlags, renderFlags]
  cases hlat : story.lat.isNumber
  · simp [initStoryMap, hs, hlat, pageTitleFlags, renderFlags]
  cases hlon : story.lon.isNumber
  · simp [initStoryMap, hs, hlat, hlon, pageTitleFlags, renderFlags]
  rcases hc : v.mapContainer with _ | _ | _
  · simp [initStoryMap, hs, hlat, hlon, hc, pageTitleFlags, renderFlags]
  · rcases hi : u.initMap with _ | _ | _ <;>
      simp [initStoryMap, hs, hlat, hlon, hc, hi, pageTitleFlags, renderFlags]
  · rcases hg : u.mapInstance with _ | _ | containerId
    · rcases hi : u.initMap with _ | _ | _ <;>
        simp [initStoryMap, hs, hlat, hlon, hc, hi, hg, pageTitleFlags, renderFlags]
    · simp [initStoryMap, hs, hlat, hlon, hc, hg, pageTitleFlags, renderFlags]
    · by_cases hid : containerId = "detail-story-map"
      · rcases hr : u.remove with _ | _
        · simp [initStoryMap, hs, hlat, hlon, hc, hg, hid, hr, pageTitleFlags, renderFlags]
        · rcases hi : u.initMap with _ | _ | _ <;>
            simp [initStoryMap, hs, hlat, hlon, hc, hi, hg, hid, hr, pageTitleFlags,
              renderFlags]
      · rcases hi : u.initMap with _ | _ | _ <;>
          simp [initStoryMap, hs, hlat, hlon, hc, hi, hg, hid, pageTitleFlags, renderFlags]

/-- What `init` does once the story is fetched and the offline status settled:
it calls `_initStoryMap()`, and so asks the model for the story again, exactly
when both coordinates are truthy and of number type. -/
theorem init_calls_initStoryMap_iff (m : Model σ) (p : Presenter) (v : View) (u : MapUtils)
    (w : World σ) (storyId : JSValue) (story : Story) (s1 s2 : σ)
    (hId : storyId.truthy = true)
    (hFetch : m.fetchStory storyId w.model = (.ok story, s1))
    (hCheck : m.isOfflineSaved s1 = false → m.checkOfflineStatus story.id s1 = (.ok (), s2)) :
    Call.getStory ∈ ((init m p v u storyId).run w).trace
      ↔ (story.lat.truthy = true ∧ story.lat.isNumber = true
          ∧ story.lon.truthy = true ∧ story.lon.isNumber = true) := by
  cases hSaved : m.isOfflineSaved s1
  · have hc := hCheck hSaved
    obtain ⟨h1, h2, h3, -, -⟩ := initStoryMap_run m v u ⟨s2, w.window⟩
    rcases hrun : (initStoryMap m v u).run ⟨s2, w.window⟩ with ⟨t, w2, r⟩
    rw [hrun] at h1 h2 h3
    simp only at h1 h2 h3
    subst h1 h2
    by_cases hcond : (story.lat.truthy && story.lat.isNumber && story.lon.truthy
        && story.lon.isNumber) = true
    · have hcond' := hcond
      simp only [Bool.and_eq_true] at hcond'
      simp [init, hId, hFetch, hSaved, hc, hcond, hrun, attachCleanupListener, h3, hcond']
    · have hcond' := hcond
      simp only [Bool.and_eq_true] at hcond'
      simp [init, hId, hFetch, hSaved, hc, hcond, attachCleanupListener, hcond']
      intro a b c
      by_contra hd
      exact hcond' ⟨⟨⟨a, b⟩, c⟩, by simpa using hd⟩
  · obtain ⟨h1, h2, h3, -, -⟩ := initStoryMap_run m v u ⟨s1, w.window⟩
    rcases hrun : (initStoryMap m v u).run ⟨s1, w.window⟩ with ⟨t, w2, r⟩
    rw [hrun] at h1 h2 h3
    simp only at h1 h2 h3
    subst h1 h2
    by_cases hcond : (story.lat.truthy && story.lat.isNumber && story.lon.truthy
        && story.lon.isNumber) = true
    · have hcond' := hcond
      simp only [Bool.and_eq_true] at hcond'
      simp [init, hId, hFetch, hSaved, hcond, hrun, attachCleanupListener, h3, hcond']
    · have hcond' := hcond
      simp only [Bool.and_eq_true] at hcond'
      simp [init, hId, hFetch, hSaved, hcond, attachCleanupListener, hcond']
      intro a b c
      by_contra hd
      exact hcond' ⟨⟨⟨a, b⟩, c⟩, by simpa using hd⟩

end DetailStoryPresenter

/-! ## Decoding the VAPID key -/

namespace HomePresenter

/-- Every character of the URL-safe alphabet has a value below 64; the two
`replace` calls turn it into the character of the same value in the standard
alphabet, which is neither whitespace nor `=`; and it is one UTF-16 code unit. -/
theorem base64url_char (c : Char) (hc : c ∈ base64urlAlphabet) :
    base64urlAlphabet.indexOf c < 64
    ∧ base64Alphabet.indexOf (standardChar c) = base64urlAlphabet.indexOf c
    ∧ base64Alphabet.contains (standardChar c) = true
    ∧ isAsciiWhitespace (standardChar c) = false
    ∧ standardChar c ≠ '='
    ∧ c.toNat < 65536 := by
  revert c
  decide

/-- The two `replace` calls act character by character. -/
theorem toStandardAlphabet_eq_map (s : List Char) :
    toStandardAlphabet s = s.map standardChar := by
  simp [toStandardAlphabet, standardChar, List.map_map, Function.comp]

/-- Eight bits make one octet. -/
theorem octets_length (bits : List Nat) : (octets bits).length = bits.length / 8 := by
  match bits with
  | b7 :: b6 :: b5 :: b4 :: b3 :: b2 :: b1 :: b0 :: rest =>
    simp only [octets, List.length_cons, octets_length rest]
    omega
  | [] => simp [octets]
  | [_] => simp [octets]
  | [_, _] => simp [octets]
  | [_, _, _] => simp [octets]
  | [_, _, _, _] => simp [octets]
  | [_, _, _, _, _] => simp [octets]
  | [_, _, _, _, _, _] => simp [octets]
  | [_, _, _, _, _, _, _] => simp [octets]

/-- Three octets from four sextets. -/
theorem octets_four (a b c d : Nat) (ha : a < 64) (hb : b < 64) (hc : c < 64) (hd : d < 64)
    (rest : List Nat) :
    octets (sixBits a ++ (sixBits b ++ (sixBits c ++ (sixBits d ++ rest))))
      = (((a * 64 + b) * 64 + c) * 64 + d) / 65536
        :: (((a * 64 + b) * 64 + c) * 64 + d) / 256 % 256
        :: (((a * 64 + b) * 64 + c) * 64 + d) % 256 :: octets rest := by
  simp only [sixBits, List.cons_append, List.nil_append, octets, List.cons.injEq, and_true]
  exact ⟨by omega, by omega, by omega, rfl⟩


/-- Four rounds of the decoding loop from an empty buffer put out three bytes
and leave the buffer empty. -/
theorem foldl_decodeStep_four (a b c d : Char) (rest : List Char) (out : List Nat) :
    (a :: b :: c :: d :: rest).foldl decodeStep ⟨0, 0, out⟩
      = rest.foldl decodeStep ⟨0, 0, out ++
          [(((base64Alphabet.indexOf a * 64 + base64Alphabet.indexOf b) * 64
              + base64Alphabet.indexOf c) * 64 + base64Alphabet.indexOf d) / 65536,
            (((base64Alphabet.indexOf a * 64 + base64Alphabet.indexOf b) * 64
              + base64Alphabet.indexOf c) * 64 + base64Alphabet.indexOf d) / 256 % 256,
            (((base64Alphabet.indexOf a * 64 + base64Alphabet.indexOf b) * 64
              + base64Alphabet.indexOf c) * 64 + base64Alphabet.indexOf d) % 256]⟩ := by
  simp [List.foldl, decodeStep]

/-- The decoding loop computes the octets of the bit string. -/
theorem decode_eq_octets (s : List Char) (hs : ∀ c ∈ s, c ∈ base64urlAlphabet) (out : List Nat) :
    decodeFinish ((s.map standardChar).foldl decodeStep ⟨0, 0, out⟩)
      = out ++ base64urlDecode s := by
  match s with
  | a :: b :: c :: d :: rest =>
    have ha := base64url_char a (hs a (by simp))
    have hb := base64url_char b (hs b (by simp))
    have hc := base64url_char c (hs c (by simp))
    have hd := base64url_char d (hs d (by simp))
    have hrest : ∀ x ∈ rest, x ∈ base64urlAlphabet := fun x hx => hs x (by simp [hx])
    simp only [List.map_cons, foldl_decodeStep_four, ha.2.1, hb.2.1, hc.2.1, hd.2.1]
    rw [decode_eq_octets rest hrest]
    simp only [base64urlDecode, List.flatMap_cons, List.append_assoc]
    rw [octets_four _ _ _ _ ha.1 hb.1 hc.1 hd.1]
    simp
  | [a, b, c] =>
    have ha := base64url_char a (hs a (by simp))
    have hb := base64url_char b (hs b (by simp))
    have hc := base64url_char c (hs c (by simp))
    simp only [List.map_cons, List.map_nil, List.foldl, decodeStep, ha.2.1, hb.2.1, hc.2.1]
    simp [decodeFinish, base64urlDecode, sixBits, octets]
    have h1 := ha.1
    have h2 := hb.1
    have h3 := hc.1
    constructor <;> omega
  | [a, b] =>
    have ha := base64url_char a (hs a (by simp))
    have hb := base64url_char b (hs b (by simp))
    simp only [List.map_cons, List.map_nil, List.foldl, decodeStep, ha.2.1, hb.2.1]
    simp [decodeFinish, base64urlDecode, sixBits, octets]
    have h1 := ha.1
    have h2 := hb.1
    omega
  | [a] =>
    simp [List.foldl, decodeStep, decodeFinish, base64urlDecode, sixBits, octets]
  | [] =>
    simp [decodeFinish, base64urlDecode, octets]


/-- A list without `=` does not end with one. -/
theorem removeTrailingEquals_of_no_equals (t : List Char) (ht : ∀ c ∈ t, c ≠ '=') :
    removeTrailingEquals t = t := by
  unfold removeTrailingEquals
  split
  · rename_i rest h
    have : '=' ∈ t := by
      rw [← List.mem_reverse, h]
      simp
    exact absurd rfl (ht _ this)
  · rename_i rest _ h
    have : '=' ∈ t := by
      rw [← List.mem_reverse, h]
      simp
    exact absurd rfl (ht _ this)
  · rfl

/-- Up to two `=` at the end of data without `=` are removed. -/
theorem removeTrailingEquals_append (t : List Char) (ht : ∀ c ∈ t, c ≠ '=') (k : Nat)
    (hk : k ≤ 2) : removeTrailingEquals (t ++ List.replicate k '=') = t := by
  have hrev : ∀ x ∈ t.reverse, x ≠ '=' := fun x hx => ht x (List.mem_reverse.mp hx)
  rcases k with _ | _ | _ | k
  · simpa using removeTrailingEquals_of_no_equals t ht
  · rcases hr : t.reverse with _ | ⟨x, xs⟩
    · have : t = [] := by simpa using hr
      subst this
      rfl
    · have hx : x ≠ '=' := hrev x (by simp [hr])
      have ht' : t = (x :: xs).reverse := by rw [← hr, List.reverse_reverse]
      simp only [removeTrailingEquals, List.replicate, List.reverse_append, List.reverse_cons,
        List.reverse_nil, List.nil_append, List.singleton_append, hr]
      split
      · rename_i h
        simp only [List.cons.injEq, true_and] at h
        exact absurd h.1 hx
      · rename_i h
        simp only [List.cons.injEq, true_and] at h
        rw [← h, ht']
      · rename_i h1 h2
        exact absurd rfl (h2 _)
  · simp only [removeTrailingEquals, List.replicate, List.reverse_append, List.reverse_cons,
      List.reverse_nil, List.nil_append, List.singleton_append, List.cons_append,
      List.reverse_reverse]
  · omega

/-- A string over the URL-safe alphabet has as many UTF-16 code units as
characters. -/
theorem jsLength_base64url (s : List Char) (hs : ∀ c ∈ s, c ∈ base64urlAlphabet) :
    jsLength s = s.length := by
  induction s with
  | nil => rfl
  | cons a t ih =>
    have ha := (base64url_char a (hs a (by simp))).2.2.2.2.2
    have ht := ih (fun c hc => hs c (by simp [hc]))
    simp only [jsLength, List.map_cons, List.sum_cons, List.length_cons, ha, if_true] at ht ⊢
    omega

/-- The bytes of the spec decoding are below 256. -/
theorem octets_lt (bits : List Nat) (hb : ∀ b ∈ bits, b ≤ 1) : ∀ x ∈ octets bits, x < 256 := by
  match bits with
  | b7 :: b6 :: b5 :: b4 :: b3 :: b2 :: b1 :: b0 :: rest =>
    intro x hx
    simp only [octets, List.mem_cons] at hx
    rcases hx with hx | hx
    · have h7 := hb b7 (by simp)
      have h6 := hb b6 (by simp)
      have h5 := hb b5 (by simp)
      have h4 := hb b4 (by simp)
      have h3 := hb b3 (by simp)
      have h2 := hb b2 (by simp)
      have h1 := hb b1 (by simp)
      have h0 := hb b0 (by simp)
      omega
    · exact octets_lt rest (fun b hb' => hb b (by simp [hb'])) x hx
  | [] => simp [octets]
  | [_] => simp [octets]
  | [_, _] => simp [octets]
  | [_, _, _] => simp [octets]
  | [_, _, _, _] => simp [octets]
  | [_, _, _, _, _] => simp [octets]
  | [_, _, _, _, _, _] => simp [octets]
  | [_, _, _, _, _, _, _] => simp [octets]

/-- The spec decoding of `n` characters has `3 * n / 4` bytes (rounded down),
each below 256. -/
theorem base64urlDecode_bytes (s : List Char) :
    (base64urlDecode s).length = 3 * s.length / 4 ∧ ∀ x ∈ base64urlDecode s, x < 256 := by
  have hlen : (s.flatMap fun c => sixBits (base64urlAlphabet.indexOf c)).length
      = 6 * s.length := by
    induction s with
    | nil => rfl
    | cons a t ih =>
      rw [List.flatMap_cons, List.length_append, ih]
      simp only [sixBits, List.length_cons, List.length_nil]
      omega
  constructor
  · rw [base64urlDecode, octets_length, hlen]
    omega
  · apply octets_lt
    intro b hb
    simp only [List.mem_flatMap, sixBits, List.mem_cons, List.mem_nil_iff, or_false] at hb
    obtain ⟨c, -, h⟩ := hb
    rcases h with h | h | h | h | h | h <;> omega

/-- The copying loop fills the array with the character codes modulo 256. -/
theorem fill_loop (rawData : List Nat) :
    (List.range rawData.length).foldl (fun out i => out.set i (rawData.getD i 0 % 256))
        (List.replicate rawData.length 0)
      = rawData.map (· % 256) := by
  have key : ∀ k, k ≤ rawData.length →
      (List.range k).foldl (fun out i => out.set i (rawData.getD i 0 % 256))
          (List.replicate rawData.length 0)
        = (rawData.take k).map (· % 256) ++ List.replicate (rawData.length - k) 0 := by
    intro k
    induction k with
    | zero => intro _; simp
    | succ n ih =>
      intro hn
      rw [List.range_succ, List.foldl_append, ih (by omega)]
      simp only [List.foldl_cons, List.foldl_nil]
      have hlen : ((rawData.take n).map (· % 256)).length = n := by
        simp only [List.length_map, List.length_take]
        omega
      obtain ⟨j, hj⟩ : ∃ j, rawData.length - n = j + 1 := ⟨rawData.length - n - 1, by omega⟩
      have hj' : rawData.length - (n + 1) = j := by omega
      rw [List.set_append, hlen, hj, hj']
      simp only [lt_self_iff_false, if_false, Nat.sub_self, List.replicate_succ, List.set_cons_zero]
      rw [List.take_succ, List.map_append, List.append_assoc]
      have hget : rawData[n]? = some (rawData.getD n 0) := by
        rw [List.getD_eq_getElem?_getD, List.getElem?_eq_getElem (by omega)]
        rfl
      rw [hget]
      rfl
  simpa using key rawData.length (le_refl _)


/-- On the padded and translated string, `atob` returns the spec decoding. -/
theorem atob_padded (s : List Char) (hs : ∀ c ∈ s, c ∈ base64urlAlphabet)
    (hlen : s.length % 4 ≠ 1) :
    atob (toStandardAlphabet (s ++ base64Padding s)) = some (base64urlDecode s) := by
  have hk : (4 - s.length % 4) % 4 ≤ 2 := by omega
  have hpad : toStandardAlphabet (s ++ base64Padding s)
      = s.map standardChar ++ List.replicate ((4 - s.length % 4) % 4) '=' := by
    rw [toStandardAlphabet_eq_map, base64Padding, jsLength_base64url s hs, List.map_append,
      List.map_replicate]
    rfl
  have hws : ∀ c ∈ s.map standardChar ++ List.replicate ((4 - s.length % 4) % 4) '=',
      (!isAsciiWhitespace c) = true := by
    intro c hc
    rcases List.mem_append.mp hc with hc | hc
    · obtain ⟨x, hx, rfl⟩ := List.mem_map.mp hc
      simp [(base64url_char x (hs x hx)).2.2.2.1]
    · rw [(List.mem_replicate.mp hc).2]
      rfl
  have hfilter : (s.map standardChar ++ List.replicate ((4 - s.length % 4) % 4) '=').filter
      (fun c => !isAsciiWhitespace c)
      = s.map standardChar ++ List.replicate ((4 - s.length % 4) % 4) '=' :=
    List.filter_eq_self.mpr hws
  have hne : ∀ c ∈ s.map standardChar, c ≠ '=' := by
    intro c hc
    obtain ⟨x, hx, rfl⟩ := List.mem_map.mp hc
    exact (base64url_char x (hs x hx)).2.2.2.2.1
  have hlen4 : (s.map standardChar ++ List.replicate ((4 - s.length % 4) % 4) '=').length % 4
      = 0 := by
    simp only [List.length_append, List.length_map, List.length_replicate]
    omega
  have hany : (s.map standardChar).any (fun c => !base64Alphabet.contains c) = false := by
    rw [List.any_eq_false]
    intro c hc
    obtain ⟨x, hx, rfl⟩ := List.mem_map.mp hc
    have hmem := (base64url_char x (hs x hx)).2.2.1
    simpa using hmem
  have hlen1 : ¬ (s.map standardChar).length % 4 = 1 := by
    simpa using hlen
  have hdec := decode_eq_octets s hs []
  rw [hpad]
  simp only [atob, hfilter, hlen4, if_true, removeTrailingEquals_append _ hne _ hk, hlen1,
    if_false, hany, hdec, List.nil_append]
  rfl

/-- The character of a value below 64 is in the URL-safe alphabet, at that very
position. -/
theorem base64urlChar_spec (v : Nat) (hv : v < 64) :
    base64urlChar v ∈ base64urlAlphabet ∧ base64urlAlphabet.indexOf (base64urlChar v) = v := by
  revert v
  decide

/-- The spec decoding undoes the RFC 4648 encoding. -/
theorem base64urlDecode_encode (bs : List Nat) (hbs : ∀ b ∈ bs, b < 256) :
    base64urlDecode (base64urlEncode bs) = bs := by
  match bs with
  | a :: b :: c :: rest =>
    have ha := hbs a (by simp)
    have hb := hbs b (by simp)
    have hc := hbs c (by simp)
    have h1 : (a * 65536 + b * 256 + c) / 262144 < 64 := by omega
    have h2 : (a * 65536 + b * 256 + c) / 4096 % 64 < 64 := by omega
    have h3 : (a * 65536 + b * 256 + c) / 64 % 64 < 64 := by omega
    have h4 : (a * 65536 + b * 256 + c) % 64 < 64 := by omega
    have ih := base64urlDecode_encode rest (fun x hx => hbs x (by simp [hx]))
    simp only [base64urlDecode] at ih ⊢
    simp only [base64urlEncode, List.flatMap_cons, (base64urlChar_spec _ h1).2,
      (base64urlChar_spec _ h2).2, (base64urlChar_spec _ h3).2, (base64urlChar_spec _ h4).2,
      octets_four _ _ _ _ h1 h2 h3 h4, ih, List.cons.injEq, and_true]
    refine ⟨?_, ?_, ?_⟩ <;> omega
  | [a, b] =>
    have ha := hbs a (by simp)
    have hb := hbs b (by simp)
    have h1 : (a * 256 + b) * 4 / 4096 < 64 := by omega
    have h2 : (a * 256 + b) * 4 / 64 % 64 < 64 := by omega
    have h3 : (a * 256 + b) * 4 % 64 < 64 := by omega
    simp only [base64urlDecode, base64urlEncode, List.flatMap_cons, List.flatMap_nil,
      (base64urlChar_spec _ h1).2, (base64urlChar_spec _ h2).2, (base64urlChar_spec _ h3).2,
      sixBits, List.cons_append, List.nil_append, List.append_nil, octets, List.cons.injEq,
      and_true]
    refine ⟨?_, ?_⟩ <;> omega
  | [a] =>
    have ha := hbs a (by simp)
    have h1 : a * 16 / 64 < 64 := by omega
    have h2 : a * 16 % 64 < 64 := by omega
    simp only [base64urlDecode, base64urlEncode, List.flatMap_cons, List.flatMap_nil,
      (base64urlChar_spec _ h1).2, (base64urlChar_spec _ h2).2,
      sixBits, List.cons_append, List.nil_append, List.append_nil, octets, List.cons.injEq,
      and_true]
    omega
  | [] => rfl

/-- The RFC 4648 encoding of bytes is a string over the URL-safe alphabet whose
length is not 1 modulo 4. -/
theorem base64urlEncode_wellFormed (bs : List Nat) (hbs : ∀ b ∈ bs, b < 256) :
    (∀ c ∈ base64urlEncode bs, c ∈ base64urlAlphabet)
    ∧ (base64urlEncode bs).length % 4 ≠ 1 := by
  match bs with
  | a :: b :: c :: rest =>
    have ha := hbs a (by simp)
    have hb := hbs b (by simp)
    have hc := hbs c (by simp)
    have h1 : (a * 65536 + b * 256 + c) / 262144 < 64 := by omega
    have h2 : (a * 65536 + b * 256 + c) / 4096 % 64 < 64 := by omega
    have h3 : (a * 65536 + b * 256 + c) / 64 % 64 < 64 := by omega
    have h4 : (a * 65536 + b * 256 + c) % 64 < 64 := by omega
    have ih := base64urlEncode_wellFormed rest (fun x hx => hbs x (by simp [hx]))
    constructor
    · intro x hx
      simp only [base64urlEncode, List.mem_cons] at hx
      rcases hx with hx | hx | hx | hx | hx
      · exact hx ▸ (base64urlChar_spec _ h1).1
      · exact hx ▸ (base64urlChar_spec _ h2).1
      · exact hx ▸ (base64urlChar_spec _ h3).1
      · exact hx ▸ (base64urlChar_spec _ h4).1
      · exact ih.1 x hx
    · have := ih.2
      simp only [base64urlEncode, List.length_cons]
      omega
  | [a, b] =>
    have ha := hbs a (by simp)
    have hb := hbs b (by simp)
    have h1 : (a * 256 + b) * 4 / 4096 < 64 := by omega
    have h2 : (a * 256 + b) * 4 / 64 % 64 < 64 := by omega
    have h3 : (a * 256 + b) * 4 % 64 < 64 := by omega
    constructor
    · intro x hx
      simp only [base64urlEncode, List.mem_cons, List.mem_nil_iff, or_false] at hx
      rcases hx with hx | hx | hx
      · exact hx ▸ (base64urlChar_spec _ h1).1
      · exact hx ▸ (base64urlChar_spec _ h2).1
      · exact hx ▸ (base64urlChar_spec _ h3).1
    · simp [base64urlEncode]
  | [a] =>
    have ha := hbs a (by simp)
    have h1 : a * 16 / 64 < 64 := by omega
    have h2 : a * 16 % 64 < 64 := by omega
    constructor
    · intro x hx
      simp only [base64urlEncode, List.mem_cons, List.mem_nil_iff, or_false] at hx
      rcases hx with hx | hx
      · exact hx ▸ (base64urlChar_spec _ h1).1
      · exact hx ▸ (base64urlChar_spec _ h2).1
    · simp [base64urlEncode]
  | [] => simp [base64urlEncode]

/-- For a string over the URL-safe alphabet whose length is not 1 modulo 4,
`#urlBase64ToUint8Array` returns the spec decoding. -/
theorem urlBase64ToUint8Array_eq (s : List Char) (hs : ∀ c ∈ s, c ∈ base64urlAlphabet)
    (hlen : s.length % 4 ≠ 1) :
    urlBase64ToUint8Array s = .ok (base64urlDecode s) := by
  have hbytes := base64urlDecode_bytes s
  have hmap : (base64urlDecode s).map (· % 256) = base64urlDecode s := by
    conv_rhs => rw [← List.map_id (base64urlDecode s)]
    apply List.map_congr_left
    intro x hx
    exact Nat.mod_eq_of_lt (hbytes.2 x hx)
  simp only [urlBase64ToUint8Array, atob_padded s hs hlen, fill_loop, hmap]

/-- Round trip: `#urlBase64ToUint8Array` gives back the bytes whose RFC 4648
base64url encoding (without padding) it is handed. -/
theorem urlBase64ToUint8Array_encode (bs : List Nat) (hbs : ∀ b ∈ bs, b < 256) :
    urlBase64ToUint8Array (base64urlEncode bs) = .ok bs := by
  have h := base64urlEncode_wellFormed bs hbs
  rw [urlBase64ToUint8Array_eq _ h.1 h.2, base64urlDecode_encode bs hbs]

/-- A string of one character, the case the padding cannot mend: `atob` throws. -/
theorem urlBase64ToUint8Array_single_character :
    urlBase64ToUint8Array ['A'] = .error (.value "InvalidCharacterError") := by
  rfl

end HomePresenter

/-! ## The claims, continued -/

namespace DetailStoryPresenter
variable {σ : Type}

/-- Claim C11, evaluated where the code departs from it.  A story on the equator
has both coordinates present and of number type (latitude 0, longitude 109.3).
Its `init` succeeds and renders the details, but does not call
`_initStoryMap()`: the model is not asked for the story again and no map is
made.  Run on its own for the same story, `_initStoryMap()` does make the map,
and `init` makes it for a story at latitude -6.2, longitude 106.8. -/
theorem init_skips_map_at_zero_latitude :
    (equatorStory.lat.isNumber = true ∧ equatorStory.lon.isNumber = true)
    ∧ ((init (servingModel equatorStory false) examplePresenter mapView exampleMapUtils
          (.string "story-2")).run ⟨⟨none, false, true⟩, exampleWindow⟩).thrown = none
    ∧ Call.renderStoryDetails equatorStory false ∈
        ((init (servingModel equatorStory false) examplePresenter mapView exampleMapUtils
          (.string "story-2")).run ⟨⟨none, false, true⟩, exampleWindow⟩).trace
    ∧ Call.getStory ∉
        ((init (servingModel equatorStory false) examplePresenter mapView exampleMapUtils
          (.string "story-2")).run ⟨⟨none, false, true⟩, exampleWindow⟩).trace
    ∧ (∀ lat lon zoom, Call.initMap lat lon zoom ∉
        ((init (servingModel equatorStory false) examplePresenter mapView exampleMapUtils
          (.string "story-2")).run ⟨⟨none, false, true⟩, exampleWindow⟩).trace)
    ∧ Call.initMap (.number 0) (.number (1093 / 10)) 15 ∈
        ((initStoryMap (servingModel equatorStory false) mapView exampleMapUtils).run
          ⟨⟨some equatorStory, false, true⟩, exampleWindow⟩).trace
    ∧ Call.initMap (.number (-31 / 5)) (.number (534 / 5)) 15 ∈
        ((init (servingModel jakartaStory false) examplePresenter mapView exampleMapUtils
          (.string "story-3")).run ⟨⟨none, false, true⟩, exampleWindow⟩).trace := by
  refine ⟨⟨rfl, rfl⟩, ?_, ?_, ?_, ?_, ?_, ?_⟩ <;>
    simp [init, initStoryMap, attachCleanupListener, servingModel, equatorStory, jakartaStory,
      mapView, exampleMapUtils, JSValue.truthy, JSValue.isNumber, Outcome.thrown]

/-- Claim C12 as stated fails.  A story fetched from the network that is also in
the offline store: `init` succeeds, passes `false` to `view.updatePageTitle`
(the status before the explicit check) and `true` to `view.renderStoryDetails`
(the status after it). -/
theorem init_title_flag_counterexample :
    ((init (servingModel (exampleStory "story-1" "Pantai") true) examplePresenter exampleView
        exampleMapUtils (.string "story-1")).run ⟨⟨none, false, true⟩, exampleWindow⟩).thrown
      = none
    ∧ pageTitleFlags
        ((init (servingModel (exampleStory "story-1" "Pantai") true) examplePresenter exampleView
          exampleMapUtils (.string "story-1")).run ⟨⟨none, false, true⟩, exampleWindow⟩).trace
      = [false]
    ∧ renderFlags
        ((init (servingModel (exampleStory "story-1" "Pantai") true) examplePresenter exampleView
          exampleMapUtils (.string "story-1")).run ⟨⟨none, false, true⟩, exampleWindow⟩).trace
      = [true] := by
  decide

/-- Claim C12 as amended.  For every `init` whose fetch resolves: the one offline
flag passed to `view.updatePageTitle` is the model's offline-saved status right
after the fetch, before any `checkOfflineStatus`.  When that status is true (the
fast path), `view.renderStoryDetails` gets `true` as well.  When it is false and
the explicit `checkOfflineStatus` resolves, `view.renderStoryDetails` gets the
status after the check, so the two flags are equal exactly when the check leaves
the status false. -/
theorem init_title_and_render_flags (m : Model σ) (p : Presenter) (v : View) (u : MapUtils)
    (w : World σ) (storyId : JSValue) (story : Story) (s1 : σ)
    (hId : storyId.truthy = true)
    (hFetch : m.fetchStory storyId w.model = (.ok story, s1)) :
    (m.isOfflineSaved s1 = true →
        pageTitleFlags ((init m p v u storyId).run w).trace = [true]
        ∧ renderFlags ((init m p v u storyId).run w).trace = [true])
    ∧ (m.isOfflineSaved s1 = false → ∀ s2, m.checkOfflineStatus story.id s1 = (.ok (), s2) →
        pageTitleFlags ((init m p v u storyId).run w).trace = [false]
        ∧ renderFlags ((init m p v u storyId).run w).trace = [m.isOfflineSaved s2]
        ∧ (pageTitleFlags ((init m p v u storyId).run w).trace
              = renderFlags ((init m p v u storyId).run w).trace
            ↔ m.isOfflineSaved s2 = false)) := by
  constructor
  · intro hSaved
    obtain ⟨h1, h2, -, h4, h5⟩ := initStoryMap_run m v u ⟨s1, w.window⟩
    rcases hrun : (initStoryMap m v u).run ⟨s1, w.window⟩ with ⟨t, w2, r⟩
    rw [hrun] at h1 h2 h4 h5
    simp only at h1 h2 h4 h5
    subst h1 h2
    simp only [pageTitleFlags, renderFlags, List.filterMap_eq_nil_iff] at h4 h5
    by_cases hcond : ((story.lat.truthy = true ∧ story.lat.isNumber = true)
        ∧ story.lon.truthy = true) ∧ story.lon.isNumber = true
    · simp [init, hId, hFetch, hSaved, hcond, hrun, attachCleanupListener, pageTitleFlags,
        renderFlags]
      exact ⟨h4, h5⟩
    · simp [init, hId, hFetch, hSaved, hcond, attachCleanupListener, pageTitleFlags,
        renderFlags]
  · intro hSaved s2 hc
    have key : pageTitleFlags ((init m p v u storyId).run w).trace = [false]
        ∧ renderFlags ((init m p v u storyId).run w).trace = [m.isOfflineSaved s2] := by
      obtain ⟨h1, h2, -, h4, h5⟩ := initStoryMap_run m v u ⟨s2, w.window⟩
      rcases hrun : (initStoryMap m v u).run ⟨s2, w.window⟩ with ⟨t, w2, r⟩
      rw [hrun] at h1 h2 h4 h5
      simp only at h1 h2 h4 h5
      subst h1 h2
      simp only [pageTitleFlags, renderFlags, List.filterMap_eq_nil_iff] at h4 h5
      by_cases hcond : ((story.lat.truthy = true ∧ story.lat.isNumber = true)
          ∧ story.lon.truthy = true) ∧ story.lon.isNumber = true
      · simp [init, hId, hFetch, hSaved, hc, hcond, hrun, attachCleanupListener,
          pageTitleFlags, renderFlags]
        exact ⟨h4, h5⟩
      · simp [init, hId, hFetch, hSaved, hc, hcond, attachCleanupListener, pageTitleFlags,
          renderFlags]
    refine ⟨key.1, key.2, ?_⟩
    rw [key.1, key.2]
    cases m.isOfflineSaved s2 <;> simp

/-- Claim C12 as amended, at a story in Jakarta fetched from the network and
found in the offline store: the title gets `false`, the details get `true`. -/
theorem init_title_and_render_flags_witness :
    (JSValue.string "story-3").truthy = true
    ∧ (servingModel jakartaStory true).fetchStory (.string "story-3") ⟨none, false, true⟩
        = (.ok jakartaStory, ⟨some jakartaStory, false, true⟩)
    ∧ pageTitleFlags
        ((init (servingModel jakartaStory true) examplePresenter mapView exampleMapUtils
          (.string "story-3")).run ⟨⟨none, false, true⟩, exampleWindow⟩).trace = [false]
    ∧ renderFlags
        ((init (servingModel jakartaStory true) examplePresenter mapView exampleMapUtils
          (.string "story-3")).run ⟨⟨none, false, true⟩, exampleWindow⟩).trace = [true] :=
  ⟨by decide, rfl,
    ((init_title_and_render_flags (servingModel jakartaStory true) examplePresenter mapView
      exampleMapUtils ⟨⟨none, false, true⟩, exampleWindow⟩ (.string "story-3") jakartaStory
      ⟨some jakartaStory, false, true⟩ (by decide) rfl).2 rfl
      ⟨some jakartaStory, true, true⟩ rfl).1,
    ((init_title_and_render_flags (servingModel jakartaStory true) examplePresenter mapView
      exampleMapUtils ⟨⟨none, false, true⟩, exampleWindow⟩ (.string "story-3") jakartaStory
      ⟨some jakartaStory, false, true⟩ (by decide) rfl).2 rfl
      ⟨some jakartaStory, true, true⟩ rfl).2.1⟩

end DetailStoryPresenter

namespace HomePresenter

/-- Claim C13.  For every string `s` over the URL-safe alphabet (`A`-`Z`, `a`-`z`,
`0`-`9`, `-`, `_`) whose length is not 1 modulo 4, `#urlBase64ToUint8Array(s)`
pads `s` with `(4 - |s| % 4) % 4` characters `=` to a length that is a multiple
of 4, maps `-` to `+` and `_` to `/` and leaves every other character, and
returns the RFC 4648 base64url decoding of `s`, which has `3 * |s| / 4` bytes
(rounded down), each below 256. -/
theorem urlBase64ToUint8Array_decodes (s : List Char)
    (hAlphabet : ∀ c ∈ s, c ∈ base64urlAlphabet) (hLength : s.length % 4 ≠ 1) :
    base64Padding s = List.replicate ((4 - s.length % 4) % 4) '='
    ∧ (s ++ base64Padding s).length % 4 = 0
    ∧ toStandardAlphabet (s ++ base64Padding s)
        = (s ++ base64Padding s).map
            (fun c => if c = '-' then '+' else if c = '_' then '/' else c)
    ∧ urlBase64ToUint8Array s = .ok (base64urlDecode s)
    ∧ (base64urlDecode s).length = 3 * s.length / 4
    ∧ ∀ b ∈ base64urlDecode s, b < 256 := by
  have hpad : base64Padding s = List.replicate ((4 - s.length % 4) % 4) '=' := by
    rw [base64Padding, jsLength_base64url s hAlphabet]
  have hbytes := base64urlDecode_bytes s
  refine ⟨hpad, ?_, ?_, urlBase64ToUint8Array_eq s hAlphabet hLength, hbytes.1, hbytes.2⟩
  · rw [hpad, List.length_append, List.length_replicate]
    omega
  · rw [toStandardAlphabet, List.map_map]
    apply List.map_congr_left
    intro c _
    simp only [Function.comp]
    split_ifs <;> simp_all

/-- Claim C13 at the string "SGVsbG8_-w", of ten characters: two `=` are added,
and the seven bytes are those of "Hello" followed by 63 and 251. -/
theorem urlBase64ToUint8Array_decodes_witness :
    (∀ c ∈ "SGVsbG8_-w".toList, c ∈ base64urlAlphabet)
    ∧ "SGVsbG8_-w".toList.length % 4 ≠ 1
    ∧ base64Padding "SGVsbG8_-w".toList = ['=', '=']
    ∧ urlBase64ToUint8Array "SGVsbG8_-w".toList = .ok [72, 101, 108, 108, 111, 63, 251] :=
  ⟨by decide, by decide,
    (urlBase64ToUint8Array_decodes "SGVsbG8_-w".toList (by decide) (by decide)).1,
    (urlBase64ToUint8Array_decodes "SGVsbG8_-w".toList (by decide) (by decide)).2.2.2.1⟩

end HomePresenter

end StoryApp
